import Mathlib

/-!
Verification of the billing-optimization engine of billingToolJS
(src/services/rules.js) through a shallow embedding in Lean.

Modelling conventions used throughout:

* Timestamps are modelled as integers counting minutes since a fixed local
  epoch that falls on a Sunday at 00:00 local time.  The JavaScript source
  manipulates Date objects at minute granularity (slot times are
  quarter-hour aligned, classifiers read only getDay/getHours/getMinutes),
  so a linear minute count with calendar fields derived arithmetically is a
  faithful model; millisecond constants of the source are scaled to minutes
  (15 * 60 * 1000 ms becomes 15, the 24 h induction window becomes 1440).
* toDate (defined in src/services/helpers.js, a file not included in the
  sources; modelled from the spec: it parses a stored text timestamp and
  yields a Date or null) is modelled by storing parsed-or-missing fields
  directly as Option values, so toDate is the identity on Option DTime.
* formatLocalDateTime (same missing helpers file; modelled from the spec:
  it renders a Date as a local Y-M-D H:M text key, injectively at minute
  granularity) is modelled as the identity on DTime: string keys are the
  minute timestamps themselves, and SQL text comparisons on stored
  timestamps coincide with numeric comparison of the parsed minutes.
* Database rows are modelled by structures mirroring the schema of
  src/db.js; the read-only queries issued by rules.js are modelled as
  filters/sorts over the row lists of a DB snapshot.  Doctor rows are
  identified with their id (the engine only threads the looked-up row
  through to the output), so a doctor lookup returns some id exactly when
  the id occurs in the doctors table.
* JavaScript Array.prototype.sort is stable; it is modelled by a stable
  insertion sort parameterised by the comparator of each call site,
  expressed as the Boolean relation cmp a b <= 0.
-/

/-! Timestamps: plain Int minutes since a local epoch lying on a Sunday
at 00:00 (see the conventions above). -/

/-- Local minute-of-day, 0 .. 1439 (getHours * 60 + getMinutes). -/
def minutesOfDay (t : Int) : Int := t.emod 1440

/-- JavaScript getDay(): 0 = Sunday .. 6 = Saturday. -/
def dayOfWeek (t : Int) : Int := (t.emod 10080) / 1440

/-- floorToQuarter from rules.js: floor the minute count to a multiple of
15 (hour boundaries are themselves multiples of 15, so flooring the
minutes-within-the-hour equals flooring the absolute minute count). -/
def floorToQuarter (t : Int) : Int := t - t.emod 15

/-- Constants of rules.js.  Time-valued constants are in minutes. -/
def TRIAGE_SLOT_MINUTES : Nat := 15
def INDUCTION_DAILY_LIMIT : Nat := 2
def INDUCTION_TOTAL_LIMIT : Nat := 4
def INDUCTION_WINDOW_MS : Int := 1440
def DELIVERY_BUFFER_MINUTES : Int := 30
def JA_VALUE : Nat := 55
def STAT_HOLIDAYS : List Int := []
def DESIGNATED_STAT_HOLIDAYS : List Int := []

/-- Result record of timeModifier. -/
structure TimeMod where
  modifier : String
  weight : Nat
deriving DecidableEq

/-- timeModifier from rules.js.  The JS compares hm = hour + minute/60
against 7, 17 and 22; on minute granularity that is minute-of-day against
420, 1020 and 1320. -/
def timeModifier (t : Int) : TimeMod :=
  let weekday := dayOfWeek t
  let hm := minutesOfDay t
  if hm < 420 then ⟨"NTAM", 3⟩
  else if hm ≥ 1320 then ⟨"NTPM", 3⟩
  else if weekday = 0 ∨ weekday = 6 then
    (if hm ≥ 420 ∧ hm < 1320 then ⟨"WK", 2⟩ else ⟨"", 1⟩)
  else if hm ≥ 1020 ∧ hm < 1320 then ⟨"EV", 2⟩
  else ⟨"", 1⟩

/-- afterHoursModifier from rules.js. -/
def afterHoursModifier (t : Int) : String :=
  let weekday := dayOfWeek t
  let hour := minutesOfDay t
  let isWeekend := weekday = 0 ∨ weekday = 6
  if hour < 420 then "NTAM"
  else if hour ≥ 1320 then "NTPM"
  else if isWeekend then
    (if hour ≥ 420 ∧ hour < 1320 then "WK" else "")
  else if hour ≥ 1020 ∧ hour < 1320 then "EV"
  else ""

/-- isHoliday from rules.js; the Y-M-D key is modelled by the local day
index (minutes divided by 1440, floored). -/
def isHoliday (t : Int) (list : List Int) : Bool :=
  list.contains (t.ediv 1440)

/-- afterHoursPremiumModifier from rules.js. -/
def afterHoursPremiumModifier (t : Int) : String :=
  let hour := minutesOfDay t
  let weekday := dayOfWeek t
  let isWeekend := weekday = 0 ∨ weekday = 6
  if hour ≥ 420 ∧ hour < 1320 ∧ isHoliday t STAT_HOLIDAYS then "TST"
  else if hour ≥ 420 ∧ hour < 1320 ∧ isHoliday t DESIGNATED_STAT_HOLIDAYS then "TDES"
  else if hour < 420 then "TNTA"
  else if hour ≥ 1320 then "TNTP"
  else if isWeekend then "TWK"
  else if hour ≥ 1020 then "TEV"
  else ""

/-- Fuel-driven while loop of generateSlots (structural recursion so that
the kernel can evaluate it; the fuel never runs out, see generateSlots_eq). -/
def generateSlotsFuel (e : Int) : Int → Nat → List Int
  | _, 0 => []
  | cursor, n + 1 =>
    if cursor < e then cursor :: generateSlotsFuel e (cursor + 15) n
    else []

/-- generateSlots from rules.js: quarter-hour steps from start while
strictly below the end. -/
def generateSlots (start e : Int) : List Int :=
  generateSlotsFuel e start (e - start).toNat

/-- triageVisitModifier from rules.js. -/
def triageVisitModifier (totalMinutes : Nat) : String :=
  if totalMinutes ≥ 85 then "CMGP08"
  else if totalMinutes ≥ 75 then "CMGP07"
  else if totalMinutes ≥ 65 then "CMGP06"
  else if totalMinutes ≥ 55 then "CMGP05"
  else if totalMinutes ≥ 45 then "CMGP04"
  else if totalMinutes ≥ 35 then "CMGP03"
  else if totalMinutes ≥ 25 then "CMGP02"
  else if totalMinutes ≥ 15 then "CMGP01"
  else ""

/-- reassessmentBaseCode from rules.js. -/
def reassessmentBaseCode (t : Int) : String :=
  let weekday := dayOfWeek t
  let hour := minutesOfDay t
  let isWeekend := weekday = 0 ∨ weekday = 6
  if hour < 420 ∨ hour ≥ 1320 then "03.05FB"
  else if isWeekend then "03.05FA"
  else if hour ≥ 1020 then "03.05FA"
  else "03.05F"

/-- isSameDate from rules.js: same local calendar day. -/
def isSameDate (a b : Int) : Bool := a.ediv 1440 = b.ediv 1440

/-- callbackCodeForTriage from rules.js. -/
def callbackCodeForTriage (t : Int) : String :=
  let weekday := dayOfWeek t
  let hour := minutesOfDay t
  let isWeekend := weekday = 0 ∨ weekday = 6
  if hour < 420 then "03.03MD"
  else if hour ≥ 1320 then "03.03MC"
  else if isWeekend then "03.03LA"
  else if hour < 1020 then "03.03KA"
  else "03.03LA"

/-- callbackCodeForInpatient from rules.js. -/
def callbackCodeForInpatient (t : Int) : String :=
  let hour := minutesOfDay t
  if hour < 420 then "03.05QB"
  else if hour ≥ 1320 then "03.05QA"
  else "03.05P"

/-- appendModifier from rules.js. -/
def appendModifier (base extra : String) : String :=
  if extra = "" then base
  else if base = "" then extra
  else base ++ "," ++ extra

/-- isWeekday from rules.js. -/
def isWeekday (t : Int) : Bool :=
  1 ≤ dayOfWeek t ∧ dayOfWeek t ≤ 5

/-- isWeekdayDaytime from rules.js. -/
def isWeekdayDaytime (t : Int) : Bool :=
  isWeekday t ∧ 420 ≤ minutesOfDay t ∧ minutesOfDay t < 1020

/-- JavaScript String.prototype.toLowerCase on the relevant ASCII action
and attribution strings (a kernel-computable rendering of toLowerCase). -/
def jsToLower (s : String) : String := String.mk (s.data.map Char.toLower)

/-! ### Stable sorting, modelling JavaScript Array.prototype.sort -/

/-- Insert an element in front of the first list element it relates to;
building block of the stable insertion sort. -/
def insertOrdered (le : α → α → Bool) (a : α) : List α → List α
  | [] => [a]
  | b :: l => if le a b then a :: b :: l else b :: insertOrdered le a l

/-- Stable sort by the Boolean relation le (for a JS comparator cmp this is
fun a b => cmp a b <= 0).  Stability matches the ECMAScript guarantee. -/
def jsSortBy (le : α → α → Bool) : List α → List α
  | [] => []
  | a :: l => insertOrdered le a (jsSortBy le l)

/-! ### Data model: database snapshot rows (schema of src/db.js) -/

/-- A shift_slots row.  Time fields hold the parsed minute timestamp or
none for NULL/unparseable text; integer flag columns are Booleans; text
columns default to the empty string (JS falsy, covering NULL and ''). -/
structure Slot where
  doctor_id : Option Nat := none
  patient_id : Option Nat := none
  start_time : Option Int := none
  action : String := ""
  delivery_code : String := ""
  delivery_by : String := ""
  delivery_time : Option Int := none
  delivery_postpartum_hemorrhage : Bool := false
  delivery_vacuum : Bool := false
  delivery_vaginal_laceration : Bool := false
  delivery_shoulder_dystocia : Bool := false
  delivery_manual_placenta : Bool := false
  delivery_bmipro : Bool := false
  delivery_resuscitation : Bool := false
  triage_non_stress_test : Bool := false
  triage_speculum_exam : Bool := false
  rounds_care_type : String := ""
  rounds_supportive_care : Bool := false
  tongue_tie_supportive_care : Bool := false
deriving DecidableEq

/-- A patient_status_events row. -/
structure StatusEvent where
  patient_id : Nat
  status : String
  occurred_at : Option Int := none
  doctor_id : Option Nat := none
  induction_non_stress_test : Bool := false
deriving DecidableEq

/-- A patients row (fields read by the engine). -/
structure Patient where
  id : Nat
  patient_type : String := "mother"
  care_admitted_at : Option Int := none
  care_delivered_at : Option Int := none
  start_datetime : Option Int := none
  second_triage_at : Option Int := none
  parent_patient_id : Option Nat := none
  baby_resuscitation : Bool := false
deriving DecidableEq

/-- A shift_windows row; the engine always parses both bounds
successfully, so they are stored as plain timestamps. -/
structure ShiftWindow where
  doctor_id : Nat
  start_datetime : Int
  end_datetime : Int
deriving DecidableEq

/-- Read-only database snapshot consumed by one engine invocation. -/
structure DB where
  doctors : List Nat := []
  patients : List Patient := []
  shift_slots : List Slot := []
  patient_status_events : List StatusEvent := []

/-- Engine output record: {time, code, modifier, doctor}. -/
structure Billing where
  time : Int
  code : String
  modifier : String
  doctor : Option Nat
deriving DecidableEq

/-- Internal billing record of the 13.99JA pipeline: the source attaches
ad hoc fields _jaPriority and _jaWeight to 13.99JA entries and reads them
back with (x._jaPriority || 0), so absent fields are 0. -/
structure BillingI where
  time : Int
  code : String
  modifier : String
  doctor : Option Nat
  jaPriority : Nat := 0
  jaWeight : Nat := 0
deriving DecidableEq

/-- Stripping the ad hoc fields (the {_jaPriority, _jaWeight, ...rest}
destructuring of the source). -/
def BillingI.clean (b : BillingI) : Billing :=
  ⟨b.time, b.code, b.modifier, b.doctor⟩

/-- dbGet('SELECT * FROM doctors WHERE id = ?'): some id when the doctor
row exists. -/
def lookupDoctor (db : DB) (id : Nat) : Option Nat :=
  if db.doctors.contains id then some id else none

/-- The pervasive pattern slot.doctor_id ? dbGet(doctors...) : null. -/
def doctorOf (db : DB) (id : Option Nat) : Option Nat :=
  match id with
  | some i => lookupDoctor db i
  | none => none

/-! ### Triage billing builder -/

/-- A collected triage slot: {...slot, slotTime, actionKey}. -/
structure TSlot where
  slot : Slot
  slotTime : Int
  actionKey : String
deriving DecidableEq

/-- collectTriageSlots from rules.js. -/
def collectTriageSlots (patientSlots : List Slot) (triageCutoff : Int) :
    List TSlot :=
  patientSlots.filterMap (fun slot =>
    match slot.start_time with
    | none => none
    | some slotTime =>
      if slotTime > triageCutoff then none
      else
        let actionKey := jsToLower slot.action
        if actionKey = "triage_visit" ∨ actionKey = "triage_reassessment" then
          some ⟨slot, slotTime, actionKey⟩
        else none)

/-- One 03.03BZ line at the earliest triage visit, when visits exist and
the visit is allowed (lines 207-222 of rules.js). -/
def triageVisitPart (db : DB) (triageSlots : List TSlot)
    (allowTriageVisit : Bool) : List Billing :=
  let triageVisits := triageSlots.filter (fun s => s.actionKey = "triage_visit")
  if triageVisits ≠ [] ∧ allowTriageVisit then
    let totalMinutes := triageVisits.length * TRIAGE_SLOT_MINUTES
    match jsSortBy (fun a b => decide (a.slotTime ≤ b.slotTime)) triageVisits with
    | [] => []
    | visitSlot :: _ =>
      [⟨visitSlot.slotTime, "03.03BZ", triageVisitModifier totalMinutes,
        doctorOf db visitSlot.slot.doctor_id⟩]
  else []

/-- Reassessment grouping state: a current group under construction. -/
structure TGroup where
  doctor_id : Option Nat
  slots : List TSlot
  lastTime : Int
deriving DecidableEq

/-- One forEach step of the reassessment grouping loop. -/
def reassessGroupStep (st : List TGroup × Option TGroup) (slot : TSlot) :
    List TGroup × Option TGroup :=
  match st.2 with
  | none => (st.1, some ⟨slot.slot.doctor_id, [slot], slot.slotTime⟩)
  | some cur =>
    if slot.slot.doctor_id = cur.doctor_id ∧
        slot.slotTime - cur.lastTime = (TRIAGE_SLOT_MINUTES : Int) then
      (st.1, some { cur with slots := cur.slots ++ [slot],
                             lastTime := slot.slotTime })
    else
      (st.1 ++ [cur], some ⟨slot.slot.doctor_id, [slot], slot.slotTime⟩)

/-- Contiguous same-doctor grouping of sorted reassessment slots. -/
def reassessGroups (sorted : List TSlot) : List TGroup :=
  let st := sorted.foldl reassessGroupStep ([], none)
  match st.2 with
  | some cur => st.1 ++ [cur]
  | none => st.1

/-- Reassessment billing lines (lines 224-274 of rules.js). -/
def triageReassessPart (db : DB) (triageSlots : List TSlot) : List Billing :=
  let reassessments :=
    triageSlots.filter (fun s => s.actionKey = "triage_reassessment")
  let sorted := jsSortBy (fun a b => decide (a.slotTime ≤ b.slotTime)) reassessments
  (reassessGroups sorted).flatMap (fun group =>
    match group.slots with
    | [] => []
    | startSlot :: _ =>
      let minutes := group.slots.length * TRIAGE_SLOT_MINUTES
      let mdf := if minutes > 35 then "CMXV35"
                 else if minutes > 20 then "CMXV20"
                 else ""
      [⟨startSlot.slotTime, reassessmentBaseCode startSlot.slotTime, mdf,
        doctorOf db group.doctor_id⟩])

/-- Per-slot extras: non-stress test and speculum exam (lines 276-296). -/
def triageExtrasPart (db : DB) (triageSlots : List TSlot) : List Billing :=
  triageSlots.flatMap (fun slot =>
    let doctor := doctorOf db slot.slot.doctor_id
    (if slot.slot.triage_non_stress_test then
       [⟨slot.slotTime, "87.54A", "", doctor⟩] else []) ++
    (if slot.slot.triage_speculum_exam then
       [⟨slot.slotTime, "13.99BE", "", doctor⟩] else []))

/-- buildTriageBillings from rules.js; the db parameter stands for the
doctor lookups issued while building the lines. -/
def buildTriageBillings (db : DB) (triageSlots : List TSlot)
    (allowTriageVisit : Bool) : List Billing :=
  if triageSlots = [] then []
  else
    jsSortBy (fun a b => decide (a.time ≤ b.time))
      (triageVisitPart db triageSlots allowTriageVisit ++
       triageReassessPart db triageSlots ++
       triageExtrasPart db triageSlots)

/-! ### Status-event billing builder -/

/-- SQLite ORDER BY occurred_at (NULLs first, then timestamp order; text
order of the stored local format agrees with the parsed minute order). -/
def leOccurred (e1 e2 : StatusEvent) : Bool :=
  match e1.occurred_at, e2.occurred_at with
  | none, _ => true
  | some _, none => false
  | some a, some b => a ≤ b

/-- One forEach step of buildStatusEventBillings; the state carries the
emitted lines and the billed induction timestamps. -/
def statusEventStep (db : DB) (allowContinuousMonitoring : Bool)
    (st : List Billing × List Int) (event : StatusEvent) :
    List Billing × List Int :=
  match event.occurred_at with
  | none => st
  | some eventTime =>
    if event.status = "Induction" then
      if st.2.length ≥ INDUCTION_TOTAL_LIMIT then st
      else
        let recentCount := (st.2.filter (fun t =>
          decide (eventTime - t < INDUCTION_WINDOW_MS) &&
          decide (eventTime ≥ t))).length
        if recentCount ≥ INDUCTION_DAILY_LIMIT then st
        else
          let mdf := afterHoursModifier eventTime
          let doctor := doctorOf db event.doctor_id
          let pushed := [(⟨eventTime, "85.5A", mdf, doctor⟩ : Billing)] ++
            (if event.induction_non_stress_test then
               [(⟨eventTime, "87.54A", "", doctor⟩ : Billing)] else [])
          (st.1 ++ pushed, st.2 ++ [eventTime])
    else if event.status = "Continuous Monitoring" then
      if allowContinuousMonitoring then
        let mdf := afterHoursModifier eventTime
        let doctor := doctorOf db event.doctor_id
        (st.1 ++ [(⟨eventTime, "87.54B", mdf, doctor⟩ : Billing)], st.2)
      else st
    else st

/-- buildStatusEventBillings from rules.js. -/
def buildStatusEventBillings (db : DB) (patientId : Nat)
    (allowContinuousMonitoring : Bool) : List Billing :=
  let events := jsSortBy leOccurred
    (db.patient_status_events.filter (fun e =>
      e.patient_id = patientId ∧
      (e.status = "Induction" ∨ e.status = "Continuous Monitoring")))
  if events = [] then []
  else (events.foldl (statusEventStep db allowContinuousMonitoring) ([], [])).1

/-! ### Supportive care and baby lookup -/

/-- buildSupportiveCareBillings from rules.js. -/
def buildSupportiveCareBillings (db : DB) (patient : Patient) : List Billing :=
  if patient.patient_type = "baby" then []
  else
    let baby := (jsSortBy (fun a b => decide (a.id ≤ b.id))
      (db.patients.filter (fun p =>
        p.parent_patient_id = some patient.id ∧
        p.patient_type = "baby"))).head?
    let ids := [patient.id] ++ (match baby with
      | some b => [b.id]
      | none => [])
    let supportiveSlots := db.shift_slots.filter (fun s =>
      (match s.patient_id with
       | some pid => ids.contains pid
       | none => false) &&
      (s.rounds_supportive_care || s.tongue_tie_supportive_care))
    supportiveSlots.filterMap (fun slot =>
      match slot.start_time with
      | none => none
      | some slotTime =>
        some (⟨slotTime, "03.05M", "", doctorOf db slot.doctor_id⟩ : Billing))

/-! ### Callback billing builder -/

/-- Callback info record {billings, slotTime, total} of rules.js. -/
structure CallbackInfo where
  billings : List Billing
  slotTime : Option Int
  total : Nat
deriving DecidableEq

/-- The fixed-value table for triage callback codes. -/
def callbackTriageValue (code : String) : Nat :=
  if code = "03.03KA" then 80
  else if code = "03.03LA" then 120
  else if code = "03.03MC" then 160
  else if code = "03.03MD" then 160
  else 0

/-- The fixed-value table for inpatient callback codes. -/
def callbackInpatientValue (code : String) : Nat :=
  if code = "03.05P" then 159
  else if code = "03.05QA" then 197
  else if code = "03.05QB" then 197
  else 0

/-- The first shift slot of a doctor inside a window with a patient and a
non-empty action (the ORDER BY start_time LIMIT 1 query of
buildCallbackBillingInfo; ties resolved in table order). -/
def firstWindowSlot (db : DB) (w : ShiftWindow) : Option Slot :=
  (jsSortBy (fun a b => decide (a.start_time.getD 0 ≤ b.start_time.getD 0))
    (db.shift_slots.filter (fun s =>
      decide (s.doctor_id = some w.doctor_id) &&
      (match s.start_time with
       | some t => decide (w.start_datetime ≤ t) && decide (t < w.end_datetime)
       | none => false) &&
      s.patient_id.isSome && decide (s.action ≠ "")))).head?

/-- buildCallbackBillingInfo from rules.js. -/
def buildCallbackBillingInfo (db : DB) (patient : Patient)
    (windows : List ShiftWindow) : List CallbackInfo :=
  (windows.map (fun w =>
    match firstWindowSlot db w with
    | none => (⟨[], none, 0⟩ : CallbackInfo)
    | some firstSlot =>
      if firstSlot.patient_id ≠ some patient.id then ⟨[], none, 0⟩
      else
        match firstSlot.start_time with
        | none => ⟨[], none, 0⟩
        | some slotTime =>
          let doctor := doctorOf db firstSlot.doctor_id
          let actionKey := jsToLower firstSlot.action
          if actionKey = "triage_visit" ∨ actionKey = "triage_reassessment" then
            let code := callbackCodeForTriage slotTime
            ⟨[⟨slotTime, code, "", doctor⟩], some slotTime,
             callbackTriageValue code⟩
          else
            match patient.care_admitted_at with
            | some admittedAt =>
              if slotTime ≥ admittedAt then
                let inpatientCode := callbackCodeForInpatient slotTime
                ⟨[⟨slotTime, "03.03DF", "", doctor⟩,
                  ⟨slotTime, inpatientCode, "", doctor⟩], some slotTime,
                 callbackInpatientValue inpatientCode⟩
              else ⟨[], some slotTime, 0⟩
            | none => ⟨[], some slotTime, 0⟩)).filter
    (fun info => info.billings ≠ [])

/-! ### After-hours premium builder (03.01AA) -/

/-- Per-doctor accumulator of buildAfterHoursPremiumBillings: earliest
qualifying slot time and modifier counts in insertion order. -/
structure PremiumInfo where
  earliestTime : Int
  counts : List (String × Nat)
deriving DecidableEq

/-- Map.set/object-property update preserving insertion order. -/
def alistSet [DecidableEq κ] (k : κ) (v : β) : List (κ × β) → List (κ × β)
  | [] => [(k, v)]
  | (k1, v1) :: rest =>
    if k1 = k then (k, v) :: rest else (k1, v1) :: alistSet k v rest

/-- Lookup in an insertion-ordered association list. -/
def alistGet? [DecidableEq κ] (l : List (κ × β)) (k : κ) : Option β :=
  (l.find? (fun kv => kv.1 = k)).map (fun kv => kv.2)

/-- String(n).padStart(2, '0'). -/
def padStart2 (n : Nat) : String :=
  let s := toString n
  if s.length ≥ 2 then s else "0" ++ s

/-- State of the premium scan: per-doctor seen slot keys and counts. -/
structure PremiumState where
  countsByDoctor : List (Nat × PremiumInfo) := []
  seenByDoctor : List (Nat × List Int) := []

/-- One slot step of the buildAfterHoursPremiumBillings scan. -/
def premiumSlotStep (st : PremiumState) (slot : Slot) : PremiumState :=
  match slot.start_time with
  | none => st
  | some slotTime =>
    let actionKey := jsToLower slot.action
    if ¬ (actionKey = "triage_visit" ∨ actionKey = "triage_reassessment" ∨
          actionKey = "attended") then st
    else
      let mdf := afterHoursPremiumModifier slotTime
      if mdf = "" then st
      else
        match slot.doctor_id with
        | none => st
        | some doctorId =>
          let seen := (alistGet? st.seenByDoctor doctorId).getD []
          if seen.contains slotTime then st
          else
            let st1 := { st with
              seenByDoctor := alistSet doctorId (seen ++ [slotTime])
                st.seenByDoctor }
            match alistGet? st1.countsByDoctor doctorId with
            | none =>
              let info0 : PremiumInfo := ⟨slotTime, [(mdf, 1)]⟩
              { st1 with
                countsByDoctor := alistSet doctorId info0 st1.countsByDoctor }
            | some info =>
              let newCount := ((alistGet? info.counts mdf).getD 0) + 1
              let info1 : PremiumInfo :=
                ⟨if slotTime < info.earliestTime then slotTime
                  else info.earliestTime,
                 alistSet mdf newCount info.counts⟩
              { st1 with
                countsByDoctor := alistSet doctorId info1 st1.countsByDoctor }

/-- The shift_slots query of one window of the premium builder. -/
def premiumWindowSlots (db : DB) (patient : Patient) (ws we : Int) :
    List Slot :=
  db.shift_slots.filter (fun s =>
    s.doctor_id.isSome && decide (s.patient_id = some patient.id) &&
    (match s.start_time with
     | some t => decide (ws ≤ t) && decide (t < we)
     | none => false))

/-- One window step of buildAfterHoursPremiumBillings.  The query also
filters on the window doctor; see premiumWindowStep below. -/
def premiumWindowStep (db : DB) (patient : Patient) (admitted delivered : Int)
    (st : PremiumState) (w : ShiftWindow) : PremiumState :=
  let windowStart := max admitted w.start_datetime
  let windowEnd := min delivered w.end_datetime
  if windowStart ≥ windowEnd then st
  else
    (db.shift_slots.filter (fun s =>
      decide (s.doctor_id = some w.doctor_id) &&
      decide (s.patient_id = some patient.id) &&
      (match s.start_time with
       | some t => decide (windowStart ≤ t) && decide (t < windowEnd)
       | none => false))).foldl premiumSlotStep st

/-- buildAfterHoursPremiumBillings from rules.js. -/
def buildAfterHoursPremiumBillings (db : DB) (patient : Patient)
    (admitted delivered : Int) (windows : List ShiftWindow) : List Billing :=
  if windows = [] then []
  else
    let st := windows.foldl (premiumWindowStep db patient admitted delivered)
      {}
    st.countsByDoctor.flatMap (fun entry =>
      let modifiers := (jsSortBy (fun a b => decide (a ≤ b))
          (entry.2.counts.map (fun kv => kv.1))).map
        (fun key =>
          key ++ " " ++ padStart2 ((alistGet? entry.2.counts key).getD 0))
      if modifiers = [] then []
      else
        [⟨entry.2.earliestTime, "03.01AA", String.intercalate ", " modifiers,
          lookupDoctor db entry.1⟩])

/-! ### Delivery code and extras -/

/-- normalizeDeliveryCode from rules.js (an empty stored code is JS-falsy,
covering NULL and ''). -/
def normalizeDeliveryCode (slot : Slot) : String :=
  if slot.delivery_code ≠ "" then slot.delivery_code
  else if jsToLower slot.delivery_by = "ob" then "87.98B"
  else "87.98A"

/-- deliveryExtras from rules.js; each set complication flag emits one
extra line carrying the caller-supplied extra modifier. -/
def deliveryExtras (slot : Slot) (time : Int) (doctor : Option Nat)
    (extraModifier : String) : List Billing :=
  (if slot.delivery_postpartum_hemorrhage then
     [(⟨time, "87.99A", extraModifier, doctor⟩ : Billing)] else []) ++
  (if slot.delivery_vacuum then
     [(⟨time, "84.21", extraModifier, doctor⟩ : Billing)] else []) ++
  (if slot.delivery_vaginal_laceration then
     [(⟨time, "87.89B", extraModifier, doctor⟩ : Billing)] else []) ++
  (if slot.delivery_shoulder_dystocia then
     [(⟨time, "85.69B", extraModifier, doctor⟩ : Billing)] else []) ++
  (if slot.delivery_manual_placenta then
     [(⟨time, "87.6", extraModifier, doctor⟩ : Billing)] else [])

/-! ### The 13.99JA scheduler (buildJaBillingsForWindow) -/

/-- A parsed other patient with both care bounds present. -/
structure OtherPatient where
  id : Nat
  admitted : Int
  delivered : Int
deriving DecidableEq

/-- The otherPatients query of buildOptimizedBillings. -/
def otherPatientsOf (db : DB) (patientId : Nat) : List OtherPatient :=
  (db.patients.filter (fun p =>
    decide (p.id ≠ patientId) && p.care_admitted_at.isSome &&
    p.care_delivered_at.isSome)).filterMap (fun p =>
      match p.care_admitted_at, p.care_delivered_at with
      | some a, some d => some ⟨p.id, a, d⟩
      | _, _ => none)

/-- Membership in the obVbacIds set (DISTINCT patient_id of shift_slots
rows whose delivery_code is 87.98B or 87.98C). -/
def isObVbacPatient (db : DB) (pid : Nat) : Bool :=
  db.shift_slots.any (fun s =>
    (decide (s.delivery_code = "87.98B") ||
     decide (s.delivery_code = "87.98C")) &&
    decide (s.patient_id = some pid))

/-- A candidate quarter-hour slot {slotTime, modifier, weight} of the JA
scheduler (ghost candidates additionally carry a contention count). -/
structure SlotC where
  slotTime : Int
  modifier : String
  weight : Nat
  contention : Nat := 0
deriving DecidableEq

/-- Tail of the encounter-start scan: prev is the immediately preceding
attended time in the sorted array. -/
def encounterStartsAux (prev : Int) : List Int → List Int
  | [] => []
  | t :: rest =>
    (if t - prev > 15 then [t] else []) ++ encounterStartsAux t rest

/-- Encounter starts: the first attended time plus every attended time
more than 15 minutes after its array predecessor. -/
def encounterStartsOf : List Int → List Int
  | [] => []
  | t :: rest => t :: encounterStartsAux t rest

/-- The occupiedKeys set of the JA scheduler: some shift_slots row of the
given doctor (for any patient) starts at t inside the clamped window. -/
def occupiedAt (db : DB) (doctorId : Nat) (ws we t : Int) : Bool :=
  db.shift_slots.any (fun s =>
    decide (s.doctor_id = some doctorId) &&
    (match s.start_time with
     | some u => decide (ws ≤ u) && decide (u < we) && decide (u = t)
     | none => false))

/-- getContention of the JA scheduler. -/
def getContention (overlapping : List OtherPatient) (slotTime : Int) : Nat :=
  (overlapping.filter (fun p =>
    let cStart := p.delivered - DELIVERY_BUFFER_MINUTES
    !(decide (slotTime < p.admitted) || decide (slotTime > p.delivered)) &&
    !(decide (cStart ≤ slotTime) && decide (slotTime < p.delivered)))).length

/-- Final mapping of the selected slots to 13.99JA lines (the return
blocks of buildJaBillingsForWindow). -/
def jaFinalize (encounterStarts attendedTimes : List Int)
    (shiftDoctorId : Nat) (sel : List (Int × SlotC)) : List BillingI :=
  (jsSortBy (fun a b => decide (a.slotTime ≤ b.slotTime))
    (sel.map (fun kv => kv.2))).map (fun s =>
      let isModifiable := encounterStarts.contains s.slotTime
      let isAttended := attendedTimes.contains s.slotTime
      { time := s.slotTime, code := "13.99JA",
        modifier := if isModifiable then s.modifier else "",
        doctor := some shiftDoctorId,
        jaPriority := if isModifiable then 2 else if isAttended then 1 else 0,
        jaWeight := if isModifiable then (timeModifier s.slotTime).weight
                    else 0 })

set_option maxHeartbeats 1000000 in
/-- buildJaBillingsForWindow from rules.js (the closure context of the
orchestrator is passed explicitly). -/
def buildJaBillingsForWindow (db : DB) (admitted delivered : Int)
    (scopedSlots : List Slot) (deliveredTime : Option Int)
    (otherPatients : List OtherPatient) (w : ShiftWindow) : List BillingI :=
  match lookupDoctor db w.doctor_id with
  | none => []
  | some shiftDoctorId =>
    let windowStart := max admitted w.start_datetime
    let windowEnd := min delivered w.end_datetime
    if windowStart ≥ windowEnd then []
    else
      let attendedTimes := jsSortBy (fun a b => decide (a ≤ b))
        ((scopedSlots.filter (fun s =>
          decide (jsToLower s.action = "attended") &&
          decide (s.doctor_id = some shiftDoctorId))).filterMap (fun s =>
            match s.start_time with
            | some t =>
              if windowStart ≤ t ∧ t < windowEnd then some t else none
            | none => none))
      let encounterStarts := encounterStartsOf attendedTimes
      let alignedStart0 := floorToQuarter windowStart
      let alignedStart := if alignedStart0 < w.start_datetime then
        w.start_datetime else alignedStart0
      let deliveryCutoff := deliveredTime.getD delivered
      let cStart := deliveryCutoff - DELIVERY_BUFFER_MINUTES
      let slots := (generateSlots alignedStart windowEnd).filterMap
        (fun st =>
          if st = deliveryCutoff then none
          else if cStart ≤ st ∧ st < deliveryCutoff then none
          else
            let tm := timeModifier st
            some (⟨st, tm.modifier, tm.weight, 0⟩ : SlotC))
      if slots = [] then []
      else
        let slotByKey : Int → Option SlotC :=
          fun k => slots.find? (fun s => s.slotTime = k)
        let encounterSlots := jsSortBy
          (fun a b => decide (b.2.weight < a.2.weight) ||
            (decide (b.2.weight = a.2.weight) &&
             decide (a.2.slotTime ≤ b.2.slotTime)))
          (encounterStarts.filterMap (fun k =>
            (slotByKey k).map (fun s => (k, s))))
        let selected1 := (encounterSlots.take 12).foldl
          (fun sel kv => alistSet kv.1 kv.2 sel) []
        let attendedNonModifiable := jsSortBy
          (fun a b => decide (a.2.slotTime ≤ b.2.slotTime))
          (attendedTimes.filterMap (fun t =>
            match slotByKey t with
            | some s =>
              if encounterStarts.contains t then none else some (t, s)
            | none => none))
        let selected2 := attendedNonModifiable.foldl
          (fun sel kv =>
            if sel.length ≥ 12 then sel
            else if (alistGet? sel kv.1).isSome then sel
            else alistSet kv.1 kv.2 sel) selected1
        let overlappingPatients := otherPatients.filter (fun p =>
          !(isObVbacPatient db p.id) && decide (windowStart < p.delivered) &&
          decide (p.admitted < windowEnd))
        let remaining := 12 - selected2.length
        if remaining = 0 then
          jaFinalize encounterStarts attendedTimes shiftDoctorId selected2
        else
          let ghostCandidates := (jsSortBy
            (fun a b => decide (a.contention < b.contention) ||
              (decide (a.contention = b.contention) &&
               (decide (b.weight < a.weight) ||
                (decide (b.weight = a.weight) &&
                 decide (a.slotTime ≤ b.slotTime)))))
            ((slots.filter (fun s =>
                !(alistGet? selected2 s.slotTime).isSome &&
                !(occupiedAt db shiftDoctorId windowStart windowEnd
                    s.slotTime))).map (fun s =>
              { s with contention :=
                  getContention overlappingPatients s.slotTime }))).take
            remaining
          let selected3 := ghostCandidates.foldl
            (fun sel s => alistSet s.slotTime s sel) selected2
          jaFinalize encounterStarts attendedTimes shiftDoctorId selected3

/-! ### Orchestrator (buildOptimizedBillings) -/

/-- The internal-to-output record embedding for entries pushed without the
ad hoc 13.99JA fields (JS reads absent fields back as 0). -/
def Billing.toI (b : Billing) : BillingI :=
  ⟨b.time, b.code, b.modifier, b.doctor, 0, 0⟩

/-- The final time-ascending comparator (a, b) => a.time - b.time. -/
def timeLeB (a b : Billing) : Bool := decide (a.time ≤ b.time)

/-- Triage cutoff: the later of the delivered time, any post-delivery
Triage status event, and a post-delivery legacy second_triage_at. -/
def triageCutoffOf (db : DB) (patient : Patient) (delivered : Int) : Int :=
  let cut1 := (db.patient_status_events.filter (fun e =>
      decide (e.patient_id = patient.id) &&
      decide (e.status = "Triage"))).foldl
    (fun cutoff e =>
      match e.occurred_at with
      | some t =>
        if t > delivered then (if t > cutoff then t else cutoff) else cutoff
      | none => cutoff) delivered
  match patient.second_triage_at with
  | some legacy =>
    if legacy > delivered then (if legacy > cut1 then legacy else cut1)
    else cut1
  | none => cut1

/-- The allowTriageVisit computation of buildOptimizedBillings (an
induction before admission, on the first triage visit's day, by a triage
visit doctor, blocks the visit billing). -/
def allowTriageVisitOf (db : DB) (patient : Patient) (admitted : Int)
    (triageSlots : List TSlot) : Bool :=
  if triageSlots.any (fun s => decide (s.actionKey = "triage_visit")) then
    let triageVisitSlots :=
      triageSlots.filter (fun s => decide (s.actionKey = "triage_visit"))
    let firstTriageVisit := (jsSortBy
      (fun a b => decide (a.slotTime ≤ b.slotTime)) triageVisitSlots).head?
    let triageVisitDoctors := triageVisitSlots.filterMap
      (fun s => s.slot.doctor_id)
    let inductionEvents := db.patient_status_events.filter (fun e =>
      decide (e.patient_id = patient.id) && decide (e.status = "Induction"))
    let hasBlockingInduction := inductionEvents.any (fun e =>
      match e.occurred_at with
      | none => false
      | some eventTime =>
        decide (eventTime < admitted) &&
        (match firstTriageVisit with
         | some f => isSameDate eventTime f.slotTime
         | none => true) &&
        (match e.doctor_id with
         | some d => triageVisitDoctors.contains d
         | none => !triageVisitDoctors.isEmpty))
    !hasBlockingInduction
  else true

/-- The scoped slots: parseable start_time within [admitted, delivered]. -/
def scopedSlotsOf (patientSlots : List Slot) (admitted delivered : Int) :
    List Slot :=
  patientSlots.filter (fun s =>
    match s.start_time with
    | some t => decide (admitted ≤ t) && decide (t ≤ delivered)
    | none => false)

/-- The scoped slots sorted by start time. -/
def sortedScopedOf (scopedSlots : List Slot) : List Slot :=
  jsSortBy (fun a b => decide (a.start_time.getD 0 ≤ b.start_time.getD 0))
    scopedSlots

/-- The first delivery-action slot among the sorted scoped slots. -/
def deliverySlotOf (sortedScoped : List Slot) : Option Slot :=
  sortedScoped.find? (fun s => decide (jsToLower s.action = "delivery"))

/-- Delivery billing time: explicit delivery_time, else slot start. -/
def deliveredTimeOf (deliverySlot : Option Slot) : Option Int :=
  match deliverySlot with
  | some s =>
    (match s.delivery_time with
     | some t => some t
     | none => s.start_time)
  | none => none

/-- Resolved delivery code. -/
def deliveryCodeOf (deliverySlot : Option Slot) : String :=
  match deliverySlot with
  | some s => normalizeDeliveryCode s
  | none => "87.98A"

/-- The attended (non-delivery) slots of the OB/VBAC path. -/
def obAttendedOf (sortedScoped : List Slot) (deliveredTime : Option Int) :
    List Slot :=
  sortedScoped.filter (fun s =>
    s.doctor_id.isSome && s.start_time.isSome &&
    !(decide (jsToLower s.action = "delivery")) &&
    (match deliveredTime, s.start_time with
     | some dt, some t => decide (t ≠ dt)
     | _, _ => true))

/-- The first-match COINPT pair scan of the OB/VBAC path: the first
consecutive attended pair 14-16 minutes apart lying inside the primary
shift window (when one exists). -/
def coinptScan (primary : Option ShiftWindow) : List Slot → List Int
  | a :: b :: rest =>
    match a.start_time, b.start_time with
    | some ft, some st =>
      let gap := st - ft
      if 14 ≤ gap ∧ gap ≤ 16 then
        match primary with
        | some w2 =>
          if w2.start_datetime ≤ ft ∧ ft < w2.end_datetime ∧
              w2.start_datetime ≤ st ∧ st < w2.end_datetime then [ft, st]
          else coinptScan primary (b :: rest)
        | none => [ft, st]
      else coinptScan primary (b :: rest)
    | _, _ => coinptScan primary (b :: rest)
  | _ => []

/-- The ghost predicate of the callback merge: an unmodified 13.99JA line
strictly before the callback slot time. -/
def ghostBeforePred (slotT : Int) (b : Billing) : Bool :=
  decide (b.code = "13.99JA") && decide (b.modifier = "") &&
  decide (b.time < slotT)

/-- One step of the callback merge loop of buildOptimizedBillings: skip
the callback when the cumulative ghost value exceeds its total, otherwise
drop those ghosts and merge the callback lines. -/
def applyCallbackStep (st : List Billing × List Billing)
    (info : CallbackInfo) : List Billing × List Billing :=
  match info.slotTime with
  | none => st
  | some slotT =>
    let ghostBeforeCallback := st.1.filter (ghostBeforePred slotT)
    let ghostTotal := ghostBeforeCallback.length * JA_VALUE
    if ghostTotal > info.total then st
    else
      (st.1.filter (fun b => !(ghostBeforePred slotT b)),
       st.2 ++ info.billings)

/-- The comparator of the global 13.99JA cap: priority descending, weight
descending, time ascending. -/
def jaCapLe (a b : BillingI) : Bool :=
  decide (b.jaPriority < a.jaPriority) ||
  (decide (b.jaPriority = a.jaPriority) &&
   (decide (b.jaWeight < a.jaWeight) ||
    (decide (b.jaWeight = a.jaWeight) && decide (a.time ≤ b.time))))

/-- The OB/VBAC attended-call path of buildOptimizedBillings. -/
def obPathBillings (db : DB) (patient : Patient)
    (primaryShiftWindow : Option ShiftWindow) (sortedScoped : List Slot)
    (deliverySlot : Option Slot) (deliveredTime : Option Int)
    (deliveryCode : String) (triageBillings afterHoursBillings : List Billing)
    (callbackInfos : List CallbackInfo) : List Billing :=
  let attended := obAttendedOf sortedScoped deliveredTime
  let coinptTimes := coinptScan primaryShiftWindow attended
  let shiftDoctor := match primaryShiftWindow with
    | some w2 => lookupDoctor db w2.doctor_id
    | none => none
  let obLines := attended.map (fun s =>
    let slotTime := s.start_time.getD 0
    let doctor := match s.doctor_id with
      | some d => lookupDoctor db d
      | none => shiftDoctor
    (⟨slotTime, "03.03AR",
      if coinptTimes.contains slotTime then "COINPT" else "",
      doctor⟩ : Billing))
  let deliveryLines := match deliveredTime, deliverySlot with
    | some dt, some ds =>
      let doctor := match ds.doctor_id with
        | some d => lookupDoctor db d
        | none => shiftDoctor
      let bmiproMod := if ds.delivery_bmipro then "BMIPRO" else ""
      [(⟨dt, deliveryCode,
         appendModifier (afterHoursModifier dt) bmiproMod,
         doctor⟩ : Billing)] ++ deliveryExtras ds dt doctor bmiproMod
    | _, _ => []
  let statusBillings := buildStatusEventBillings db patient.id true
  let callbackBillings := callbackInfos.flatMap (fun i => i.billings)
  let supportiveBillings := buildSupportiveCareBillings db patient
  jsSortBy timeLeB (obLines ++ deliveryLines ++ triageBillings ++
    statusBillings ++ callbackBillings ++ afterHoursBillings ++
    supportiveBillings)

/-- The delivery push of the non-OB window path (lines 1024-1038). -/
def windowDeliveryPush (db : DB) (primary : ShiftWindow)
    (deliverySlot : Option Slot) (deliveredTime : Option Int)
    (deliveryCode : String) : List BillingI :=
  let primaryShiftDoctor := lookupDoctor db primary.doctor_id
  match deliveredTime with
  | some dt =>
    if primary.start_datetime ≤ dt ∧ dt ≤ primary.end_datetime then
      let doctor := match deliverySlot with
        | some ds =>
          (match ds.doctor_id with
           | some d => lookupDoctor db d
           | none => primaryShiftDoctor)
        | none => primaryShiftDoctor
      let bmiproMod := match deliverySlot with
        | some ds => if ds.delivery_bmipro then "BMIPRO" else ""
        | none => ""
      [Billing.toI ⟨dt, deliveryCode,
        appendModifier (afterHoursModifier dt) bmiproMod, doctor⟩] ++
      (match deliverySlot with
       | some ds => (deliveryExtras ds dt doctor bmiproMod).map Billing.toI
       | none => [])
    else []
  | none => []

/-- The capped, cleaned 13.99JA lines plus the non-JA internal lines. -/
def windowFilteredStart (billings1 : List BillingI) : List Billing :=
  let jaBillings := billings1.filter (fun b => decide (b.code = "13.99JA"))
  let otherBillings :=
    billings1.filter (fun b => decide (b.code ≠ "13.99JA"))
  let cappedJaBillings := (jsSortBy jaCapLe jaBillings).take 12
  otherBillings.map BillingI.clean ++ cappedJaBillings.map BillingI.clean

/-- The non-OB, window-present path of buildOptimizedBillings. -/
def windowPathBillings (db : DB) (patient : Patient)
    (activeShiftWindows : List ShiftWindow) (primary : ShiftWindow)
    (admitted delivered : Int) (scopedSlots : List Slot)
    (deliverySlot : Option Slot) (deliveredTime : Option Int)
    (deliveryCode : String) (triageBillings afterHoursBillings : List Billing)
    (callbackInfos : List CallbackInfo) : List Billing :=
  let otherPatients := otherPatientsOf db patient.id
  let billings0 := activeShiftWindows.flatMap
    (buildJaBillingsForWindow db admitted delivered scopedSlots
      deliveredTime otherPatients)
  let billings1 := billings0 ++
    windowDeliveryPush db primary deliverySlot deliveredTime deliveryCode
  let filteredStart := windowFilteredStart billings1
  let sortedCallbacks := jsSortBy
    (fun a b => decide (a.slotTime.getD 0 ≤ b.slotTime.getD 0))
    (callbackInfos.filter (fun i =>
      i.slotTime.isSome && decide (i.billings ≠ [])))
  let res := sortedCallbacks.foldl applyCallbackStep (filteredStart, [])
  let has1399JA := res.1.any (fun b => decide (b.code = "13.99JA"))
  let statusBillings := buildStatusEventBillings db patient.id (!has1399JA)
  let supportiveBillings := buildSupportiveCareBillings db patient
  jsSortBy timeLeB (res.1 ++ triageBillings ++ statusBillings ++ res.2 ++
    afterHoursBillings ++ supportiveBillings)

/-- buildOptimizedBillings from rules.js.  The activeShiftWindow argument
is taken in its normalized list form. -/
def buildOptimizedBillings (db : DB) (patient : Patient)
    (patientSlots : List Slot) (activeShiftWindows : List ShiftWindow) :
    List Billing :=
  match patient.care_admitted_at, patient.care_delivered_at with
  | some admitted, some delivered =>
    if admitted ≥ delivered then []
    else
      let primaryShiftWindow := activeShiftWindows.head?
      let triageCutoff := triageCutoffOf db patient delivered
      let triageSlots := collectTriageSlots patientSlots triageCutoff
      let allowTriageVisit := allowTriageVisitOf db patient admitted
        triageSlots
      let scopedSlots := scopedSlotsOf patientSlots admitted delivered
      let triageBillings := buildTriageBillings db triageSlots
        allowTriageVisit
      let afterHoursBillings := buildAfterHoursPremiumBillings db patient
        admitted delivered activeShiftWindows
      let sortedScoped := sortedScopedOf scopedSlots
      let deliverySlot := deliverySlotOf sortedScoped
      let deliveredTime := deliveredTimeOf deliverySlot
      let deliveryCode := deliveryCodeOf deliverySlot
      let deliveredByOb :=
        deliverySlot.isSome && decide (deliveryCode = "87.98B")
      let deliveredByVbac :=
        deliverySlot.isSome && decide (deliveryCode = "87.98C")
      let callbackInfos := buildCallbackBillingInfo db patient
        activeShiftWindows
      if deliveredByOb || deliveredByVbac then
        obPathBillings db patient primaryShiftWindow sortedScoped
          deliverySlot deliveredTime deliveryCode triageBillings
          afterHoursBillings callbackInfos
      else
        match primaryShiftWindow with
        | none =>
          jsSortBy timeLeB (triageBillings ++
            buildStatusEventBillings db patient.id true ++
            afterHoursBillings ++ buildSupportiveCareBillings db patient)
        | some primary =>
          windowPathBillings db patient activeShiftWindows primary admitted
            delivered scopedSlots deliverySlot deliveredTime deliveryCode
            triageBillings afterHoursBillings callbackInfos
  | _, _ => []

/-! ## Concrete instances used by counterexamples and witnesses -/

/-- A patient with inverted care bounds (admitted after delivered). -/
def invertedPatient : Patient :=
  { id := 1, care_admitted_at := some 5, care_delivered_at := some 3 }

/-- A one-doctor database. -/
def dbDoctors1 : DB := { doctors := [1] }

/-- A triage-visit slot of doctor 1 at time t (as collected by
collectTriageSlots). -/
def tvAt (t : Int) : TSlot :=
  ⟨{ doctor_id := some 1, patient_id := some 1, start_time := some t,
     action := "triage_visit" }, t, "triage_visit"⟩

/-- A night-time (01:00 Sunday) delivery slot with vacuum and shoulder
dystocia set, no explicit delivery code and no OB attribution. -/
def deliverySlotC5 : Slot :=
  { doctor_id := some 1, patient_id := some 1, start_time := some 60,
    action := "delivery", delivery_vacuum := true,
    delivery_shoulder_dystocia := true }

/-- A slot of doctor 1 for another patient at the window start, keeping
the callback builder from attributing the window to patient 1. -/
def blockSlotC5 : Slot :=
  { doctor_id := some 1, patient_id := some 2, start_time := some 0,
    action := "attended" }

/-- Patient admitted at the epoch and delivered two hours later. -/
def patientC5 : Patient :=
  { id := 1, care_admitted_at := some 0, care_delivered_at := some 120 }

/-- Doctor 1 on shift over the first four hours. -/
def windowC5 : ShiftWindow := ⟨1, 0, 240⟩

/-- Database for the delivery-extras scenario. -/
def dbC5 : DB := { doctors := [1], shift_slots := [deliverySlotC5, blockSlotC5] }

/-- Doctor 1's first window slot: attended, patient 1, Monday 09:15. -/
def cbSlotC1 : Slot :=
  { doctor_id := some 1, patient_id := some 1, start_time := some 1995,
    action := "attended" }

/-- Patient admitted Monday 08:00 and delivered Monday 11:00. -/
def patientC1 : Patient :=
  { id := 1, care_admitted_at := some 1920, care_delivered_at := some 2100 }

/-- Doctor 1 on shift Monday 08:00-09:30. -/
def windowC1 : ShiftWindow := ⟨1, 1920, 2010⟩

/-- Database for the callback-versus-ghost scenario. -/
def dbC1 : DB := { doctors := [1], shift_slots := [cbSlotC1] }

/-- An Induction status event of a patient at time t (no doctor, no
non-stress test). -/
def mkInd (pid : Nat) (t : Int) : StatusEvent :=
  { patient_id := pid, status := "Induction", occurred_at := some t }

/-- A database holding exactly five induction events of one patient. -/
def dbInductions (pid : Nat) (t1 t2 t3 t4 t5 : Int) : DB :=
  { patient_status_events :=
      [mkInd pid t1, mkInd pid t2, mkInd pid t3, mkInd pid t4,
       mkInd pid t5] }

/-- Invariant of the JA selection map: keys are pairwise distinct, each
value sits at its own slot time, and no value sits at the delivery
cutoff. -/
def selInv (cutoff : Int) (sel : List (Int × SlotC)) : Prop :=
  (sel.map Prod.fst).Nodup ∧
  ∀ kv ∈ sel, kv.2.slotTime = kv.1 ∧ kv.2.slotTime ≠ cutoff

/-- The sample patient of the duplicate-JA scenario. -/
def patientC8 : Patient :=
  { id := 1, care_admitted_at := some 0, care_delivered_at := some 100 }

/-- An attended shift slot of doctor 1 at minute 15. -/
def attSlotC10 : Slot :=
  { doctor_id := some 1, patient_id := some 1, start_time := some 15,
    action := "Attended" }

/-- A one-doctor database whose only shift slot occupies minute 15. -/
def dbC10 : DB := { doctors := [1], shift_slots := [attSlotC10] }

/-- Invariant of the JA selection map towards the occupied-slot
exclusion: every selected slot sits on the generated grid, and a slot
neither encounter-start nor attended was chosen only at an unoccupied
time. -/
def ghostInv (enc att : List Int) (db : DB) (did : Nat) (ws we : Int)
    (grid : List Int) (sel : List (Int × SlotC)) : Prop :=
  ∀ kv ∈ sel, kv.2.slotTime ∈ grid ∧
    (enc.contains kv.2.slotTime = true ∨
     att.contains kv.2.slotTime = true ∨
     occupiedAt db did ws we kv.2.slotTime = false)

/-! ## Supporting lemmas -/

theorem insertOrdered_perm (le : α → α → Bool) (a : α) (l : List α) :
    List.Perm (insertOrdered le a l) (a :: l) := by
  induction l with
  | nil => simp [insertOrdered]
  | cons b l ih =>
    simp only [insertOrdered]
    split
    · exact List.Perm.refl _
    · exact ((ih.cons b).trans (List.Perm.swap a b l))

theorem jsSortBy_perm (le : α → α → Bool) (l : List α) :
    List.Perm (jsSortBy le l) l := by
  induction l with
  | nil => simp [jsSortBy]
  | cons a l ih =>
    simp only [jsSortBy]
    exact (insertOrdered_perm le a (jsSortBy le l)).trans (ih.cons a)

theorem mem_jsSortBy {le : α → α → Bool} {l : List α} {a : α} :
    a ∈ jsSortBy le l ↔ a ∈ l :=
  (jsSortBy_perm le l).mem_iff

theorem countP_jsSortBy (le : α → α → Bool) (p : α → Bool) (l : List α) :
    (jsSortBy le l).countP p = l.countP p :=
  (jsSortBy_perm le l).countP_eq p

/-- A sorted input is returned unchanged (used to evaluate folds over
pre-sorted event lists symbolically). -/
theorem jsSortBy_of_chain (le : α → α → Bool) :
    ∀ l : List α, l.Chain' (fun a b => le a b = true) → jsSortBy le l = l := by
  intro l h
  induction l with
  | nil => rfl
  | cons a l ih =>
    have hrest : l.Chain' (fun a b => le a b = true) := h.tail
    simp only [jsSortBy, ih hrest]
    cases l with
    | nil => rfl
    | cons b l2 =>
      have hab : le a b = true := List.chain'_cons.mp h |>.1
      simp [insertOrdered, hab]

/-- The fuel of generateSlotsFuel is irrelevant once sufficient. -/
theorem generateSlotsFuel_congr (e : Int) :
    ∀ (n m : Nat) (c : Int), (e - c).toNat ≤ n → (e - c).toNat ≤ m →
      generateSlotsFuel e c n = generateSlotsFuel e c m := by
  intro n
  induction n with
  | zero =>
    intro m c hn hm
    have hlt : ¬ c < e := by omega
    cases m with
    | zero => rfl
    | succ m => simp [generateSlotsFuel, hlt]
  | succ n ih =>
    intro m c hn hm
    cases m with
    | zero =>
      have hlt : ¬ c < e := by omega
      simp [generateSlotsFuel, hlt]
    | succ m =>
      by_cases h : c < e
      · show (if c < e then c :: generateSlotsFuel e (c + 15) n else []) =
          (if c < e then c :: generateSlotsFuel e (c + 15) m else [])
        rw [if_pos h, if_pos h]
        rw [ih m (c + 15) (by omega) (by omega)]
      · show (if c < e then c :: generateSlotsFuel e (c + 15) n else []) =
          (if c < e then c :: generateSlotsFuel e (c + 15) m else [])
        rw [if_neg h, if_neg h]

/-- The while-loop unfolding equation of generateSlots. -/
theorem generateSlots_eq (start e : Int) :
    generateSlots start e =
      if start < e then start :: generateSlots (start + 15) e else [] := by
  unfold generateSlots
  by_cases h : start < e
  · rw [if_pos h]
    have h1 : (e - start).toNat = ((e - start).toNat - 1) + 1 := by omega
    rw [h1]
    show (if start < e then
        start :: generateSlotsFuel e (start + 15) ((e - start).toNat - 1)
      else []) = _
    rw [if_pos h]
    rw [generateSlotsFuel_congr e ((e - start).toNat - 1)
      ((e - (start + 15)).toNat) (start + 15) (by omega) (by omega)]
  · rw [if_neg h]
    have h0 : (e - start).toNat = 0 := by omega
    rw [h0]
    rfl

/-! ## Claim theorems -/

/-- C3: for every patient whose care_admitted_at or care_delivered_at is
missing or unparseable (modelled as none), or whose admitted time is at
least the delivered time, buildOptimizedBillings returns the empty list,
regardless of the supplied slots and windows. -/
theorem claim_C3 (db : DB) (patient : Patient) (patientSlots : List Slot)
    (windows : List ShiftWindow)
    (h : patient.care_admitted_at = none ∨ patient.care_delivered_at = none ∨
      ∃ a d, patient.care_admitted_at = some a ∧
        patient.care_delivered_at = some d ∧ a ≥ d) :
    buildOptimizedBillings db patient patientSlots windows = [] := by
  unfold buildOptimizedBillings
  rcases h with h | h | ⟨a, d, ha, hd, hge⟩
  · rw [h]
  · rw [h]
    cases patient.care_admitted_at <;> rfl
  · rw [ha, hd]
    simp [hge]

/-- Witness for C3 at a concrete inverted patient. -/
theorem claim_C3_witness :
    (invertedPatient.care_admitted_at = none ∨
      invertedPatient.care_delivered_at = none ∨
      ∃ a d, invertedPatient.care_admitted_at = some a ∧
        invertedPatient.care_delivered_at = some d ∧ a ≥ d) ∧
    buildOptimizedBillings { doctors := [1] } invertedPatient [] [] = [] :=
  ⟨Or.inr (Or.inr ⟨5, 3, rfl, rfl, by norm_num⟩),
   claim_C3 { doctors := [1] } invertedPatient [] []
     (Or.inr (Or.inr ⟨5, 3, rfl, rfl, by norm_num⟩))⟩

/-- C9 counterexample: the claim asserts the code vocabulary of
afterHoursModifier is distinct from the modifier strings of timeModifier,
but at t = 0 both produce the very same non-empty string NTAM. -/
theorem claim_C9_counterexample :
    afterHoursModifier 0 = "NTAM" ∧ (timeModifier 0).modifier = "NTAM" ∧
    afterHoursModifier 0 ≠ "" := by decide

/-- C9 (amended): afterHoursModifier returns a code among
{NTAM, NTPM, WK, EV, ''} using exactly the same time-window boundaries as
timeModifier; indeed it coincides with the modifier component of
timeModifier everywhere (the vocabularies are identical, not distinct). -/
theorem claim_C9 (t : Int) :
    afterHoursModifier t = (timeModifier t).modifier ∧
    afterHoursModifier t ∈ ["NTAM", "NTPM", "WK", "EV", ""] := by
  unfold afterHoursModifier timeModifier
  dsimp only
  split_ifs <;> simp_all

/-- Every reassessment base code differs from the triage visit code. -/
theorem reassessmentBaseCode_ne_bz (t : Int) :
    reassessmentBaseCode t ≠ "03.03BZ" := by
  unfold reassessmentBaseCode
  dsimp only
  split_ifs <;> decide

/-- Entries of the visit part carry the 03.03BZ code and the duration
modifier computed from the triage-visit slot count. -/
theorem triageVisitPart_mem (db : DB) (ts : List TSlot) (allow : Bool)
    (b : Billing) (hb : b ∈ triageVisitPart db ts allow) :
    b.code = "03.03BZ" ∧
    b.modifier = triageVisitModifier
      ((ts.filter (fun s => s.actionKey = "triage_visit")).length *
        TRIAGE_SLOT_MINUTES) := by
  unfold triageVisitPart at hb
  dsimp only at hb
  split at hb
  · split at hb
    · cases hb
    · rw [List.mem_singleton] at hb
      subst hb
      exact ⟨rfl, rfl⟩
  · cases hb

/-- Entries of the reassessment part never carry the 03.03BZ code. -/
theorem triageReassessPart_ne_bz (db : DB) (ts : List TSlot) (b : Billing)
    (hb : b ∈ triageReassessPart db ts) : b.code ≠ "03.03BZ" := by
  unfold triageReassessPart at hb
  dsimp only at hb
  rw [List.mem_flatMap] at hb
  obtain ⟨g, _, hbg⟩ := hb
  revert hbg
  split
  · intro h; cases h
  · intro h
    rw [List.mem_singleton] at h
    subst h
    exact reassessmentBaseCode_ne_bz _

/-- Entries of the extras part never carry the 03.03BZ code. -/
theorem triageExtrasPart_ne_bz (db : DB) (ts : List TSlot) (b : Billing)
    (hb : b ∈ triageExtrasPart db ts) : b.code ≠ "03.03BZ" := by
  unfold triageExtrasPart at hb
  rw [List.mem_flatMap] at hb
  obtain ⟨sl, _, hbg⟩ := hb
  rw [List.mem_append] at hbg
  rcases hbg with h | h
  · split at h
    · rw [List.mem_singleton] at h
      subst h
      show ("87.54A" : String) ≠ "03.03BZ"
      decide
    · cases h
  · split at h
    · rw [List.mem_singleton] at h
      subst h
      show ("13.99BE" : String) ≠ "03.03BZ"
      decide
    · cases h

/-- Decomposition of buildTriageBillings membership into the three parts. -/
theorem mem_buildTriageBillings {db : DB} {ts : List TSlot} {allow : Bool}
    {b : Billing} (hb : b ∈ buildTriageBillings db ts allow) :
    b ∈ triageVisitPart db ts allow ∨ b ∈ triageReassessPart db ts ∨
    b ∈ triageExtrasPart db ts := by
  unfold buildTriageBillings at hb
  split at hb
  · cases hb
  · rw [mem_jsSortBy, List.append_assoc, List.mem_append,
      List.mem_append] at hb
    exact hb

/-- C6 counterexample: three 15-minute triage-visit slots (45 minutes)
produce the single 03.03BZ line with modifier CMGP04, not CMGP03 as the
claim states. -/
theorem claim_C6_counterexample :
    (buildTriageBillings dbDoctors1 [tvAt 0, tvAt 15, tvAt 30] true).map
      (fun b => (b.code, b.modifier)) = [("03.03BZ", "CMGP04")] ∧
    triageVisitModifier (3 * TRIAGE_SLOT_MINUTES) = "CMGP04" ∧
    "CMGP04" ≠ "CMGP03" := by decide

/-- The visit part is empty when no triage-visit slot exists. -/
theorem triageVisitPart_empty (db : DB) (ts : List TSlot) (allow : Bool)
    (h : ts.filter (fun s => s.actionKey = "triage_visit") = []) :
    triageVisitPart db ts allow = [] := by
  unfold triageVisitPart
  dsimp only
  rw [h]
  simp

/-- C6 (amended): with the triage visit allowed, 3 triage-visit slots
(45 minutes) put modifier CMGP04 on the single 03.03BZ line, 1 slot
(15 minutes) puts CMGP01, and with no triage-visit slot no 03.03BZ line is
emitted. -/
theorem claim_C6 (db : DB) (ts : List TSlot) :
    (((ts.filter (fun s => s.actionKey = "triage_visit")).length = 3 →
      ∀ b ∈ buildTriageBillings db ts true, b.code = "03.03BZ" →
        b.modifier = "CMGP04") ∧
     ((ts.filter (fun s => s.actionKey = "triage_visit")).length = 1 →
      ∀ b ∈ buildTriageBillings db ts true, b.code = "03.03BZ" →
        b.modifier = "CMGP01") ∧
     (ts.filter (fun s => s.actionKey = "triage_visit") = [] →
      ∀ b ∈ buildTriageBillings db ts true, b.code ≠ "03.03BZ")) := by
  refine ⟨?_, ?_, ?_⟩
  · intro hlen b hb hcode
    rcases mem_buildTriageBillings hb with h | h | h
    · have hm := (triageVisitPart_mem db ts true b h).2
      rw [hlen] at hm
      rw [hm]
      decide
    · exact absurd hcode (triageReassessPart_ne_bz db ts b h)
    · exact absurd hcode (triageExtrasPart_ne_bz db ts b h)
  · intro hlen b hb hcode
    rcases mem_buildTriageBillings hb with h | h | h
    · have hm := (triageVisitPart_mem db ts true b h).2
      rw [hlen] at hm
      rw [hm]
      decide
    · exact absurd hcode (triageReassessPart_ne_bz db ts b h)
    · exact absurd hcode (triageExtrasPart_ne_bz db ts b h)
  · intro hempty b hb hcode
    rcases mem_buildTriageBillings hb with h | h | h
    · rw [triageVisitPart_empty db ts true hempty] at h
      cases h
    · exact absurd hcode (triageReassessPart_ne_bz db ts b h)
    · exact absurd hcode (triageExtrasPart_ne_bz db ts b h)

/-- Witness for C6: three visits give CMGP04, one visit gives CMGP01, and
an empty slot list yields no 03.03BZ line. -/
theorem claim_C6_witness :
    (([tvAt 0, tvAt 15, tvAt 30].filter
        (fun s => s.actionKey = "triage_visit")).length = 3 ∧
     (∀ b ∈ buildTriageBillings dbDoctors1 [tvAt 0, tvAt 15, tvAt 30] true,
        b.code = "03.03BZ" → b.modifier = "CMGP04")) ∧
    (([tvAt 7].filter (fun s => s.actionKey = "triage_visit")).length = 1 ∧
     (∀ b ∈ buildTriageBillings dbDoctors1 [tvAt 7] true,
        b.code = "03.03BZ" → b.modifier = "CMGP01")) ∧
    (([] : List TSlot).filter (fun s => s.actionKey = "triage_visit") = [] ∧
     (∀ b ∈ buildTriageBillings dbDoctors1 [] true, b.code ≠ "03.03BZ")) :=
  ⟨⟨by decide, (claim_C6 dbDoctors1 [tvAt 0, tvAt 15, tvAt 30]).1 (by decide)⟩,
   ⟨by decide, (claim_C6 dbDoctors1 [tvAt 7]).2.1 (by decide)⟩,
   ⟨by decide, (claim_C6 dbDoctors1 []).2.2 (by decide)⟩⟩

/-- C5 counterexample: with the night delivery slot of deliverySlotC5 the
engine emits exactly the three claimed lines at the delivery time, but the
delivery line carries NTAM while both complication extras carry the empty
modifier, so the three lines do not carry the same after-hours modifier. -/
theorem claim_C5_counterexample :
    ((buildOptimizedBillings dbC5 patientC5 [deliverySlotC5] [windowC5]).filter
       (fun b => b.time = 60)).map (fun b => (b.code, b.modifier)) =
      [("87.98A", "NTAM"), ("84.21", ""), ("85.69B", "")] ∧
    ("NTAM" : String) ≠ "" := by decide

/-- C5 (amended): a delivery slot with delivery_vacuum = 1 and
delivery_shoulder_dystocia = 1, no other complication flags, no explicit
delivery_code, no BMI-program flag and a non-OB attribution, whose
delivery time lies inside the primary window, makes the engine push
exactly 3 lines at the delivery time: 87.98A carrying the after-hours
modifier, and 84.21 and 85.69B each carrying the empty modifier (the
complication extras receive only the BMIPRO component, not the after-hours
modifier). -/
theorem claim_C5 (db : DB) (primary : ShiftWindow) (ds : Slot) (dt : Int)
    (hv : ds.delivery_vacuum = true)
    (hsd : ds.delivery_shoulder_dystocia = true)
    (hph : ds.delivery_postpartum_hemorrhage = false)
    (hvl : ds.delivery_vaginal_laceration = false)
    (hmp : ds.delivery_manual_placenta = false)
    (hbmi : ds.delivery_bmipro = false)
    (hcode : ds.delivery_code = "")
    (hby : jsToLower ds.delivery_by ≠ "ob")
    (hin : primary.start_datetime ≤ dt ∧ dt ≤ primary.end_datetime) :
    (windowDeliveryPush db primary (some ds) (some dt)
        (deliveryCodeOf (some ds))).map (fun b => (b.time, b.code, b.modifier))
      = [(dt, "87.98A", afterHoursModifier dt), (dt, "84.21", ""),
         (dt, "85.69B", "")] := by
  unfold windowDeliveryPush deliveryCodeOf normalizeDeliveryCode
    deliveryExtras
  dsimp only
  rw [if_pos hin]
  simp [hv, hsd, hph, hvl, hmp, hbmi, hcode, hby, appendModifier,
    Billing.toI, BillingI.clean]

/-- Witness for C5 at the concrete night delivery slot. -/
theorem claim_C5_witness :
    (deliverySlotC5.delivery_vacuum = true ∧
     deliverySlotC5.delivery_shoulder_dystocia = true ∧
     deliverySlotC5.delivery_code = "" ∧
     jsToLower deliverySlotC5.delivery_by ≠ "ob") ∧
    (windowDeliveryPush dbC5 windowC5 (some deliverySlotC5) (some 60)
        (deliveryCodeOf (some deliverySlotC5))).map
      (fun b => (b.time, b.code, b.modifier)) =
      [(60, "87.98A", afterHoursModifier 60), (60, "84.21", ""),
       (60, "85.69B", "")] :=
  ⟨by decide,
   claim_C5 dbC5 windowC5 deliverySlotC5 60 rfl rfl rfl rfl rfl rfl rfl
     (by decide) (by decide)⟩

/-- C1 counterexample: a daytime inpatient callback (slot time 1995, fixed
value 159) confronts 5 unmodified ghost 13.99JA entries before it (value
275 > 159).  The claim says those ghosts are suppressed and the callback
merged; the engine instead keeps the ghosts and drops the callback (no
03.03DF line appears in the result). -/
theorem claim_C1_counterexample :
    buildCallbackBillingInfo dbC1 patientC1 [windowC1] =
      [⟨[⟨1995, "03.03DF", "", some 1⟩, ⟨1995, "03.05P", "", some 1⟩],
        some 1995, 159⟩] ∧
    ((buildOptimizedBillings dbC1 patientC1 [cbSlotC1] [windowC1]).filter
        (ghostBeforePred 1995)).length = 5 ∧
    5 * JA_VALUE > 159 ∧
    (buildOptimizedBillings dbC1 patientC1 [cbSlotC1] [windowC1]).all
      (fun b => decide (b.code ≠ "03.03DF")) = true := by decide

/-- C1 (amended): each callback info record (processed in ascending
slot-time order) suppresses the unmodified ghost 13.99JA entries strictly
before its slot time and merges its billing lines exactly when the
cumulative ghost value ($55 per entry) does not exceed the callback's
fixed value; when the ghost value exceeds it, the callback is skipped and
the ghost entries are kept unchanged. -/
theorem claim_C1 (st : List Billing × List Billing) (info : CallbackInfo)
    (t : Int) (hst : info.slotTime = some t) :
    ((st.1.filter (ghostBeforePred t)).length * JA_VALUE > info.total →
      applyCallbackStep st info = st) ∧
    ((st.1.filter (ghostBeforePred t)).length * JA_VALUE ≤ info.total →
      applyCallbackStep st info =
        (st.1.filter (fun b => !(ghostBeforePred t b)),
         st.2 ++ info.billings)) := by
  unfold applyCallbackStep
  rw [hst]
  constructor
  · intro h
    dsimp only
    rw [if_pos h]
  · intro h
    dsimp only
    rw [if_neg (by omega)]

/-- Witness for C1 at two concrete callback infos: one whose ghost value
exceeds the total (skipped) and one whose ghost value does not (merged,
ghost suppressed). -/
theorem claim_C1_witness :
    ((⟨[⟨1995, "03.03DF", "", some 1⟩], some 1995, 50⟩ :
        CallbackInfo).slotTime = some 1995 ∧
     ([(⟨0, "13.99JA", "", some 1⟩ : Billing)].filter
        (ghostBeforePred 1995)).length * JA_VALUE > 50 ∧
     applyCallbackStep ([⟨0, "13.99JA", "", some 1⟩], [])
        ⟨[⟨1995, "03.03DF", "", some 1⟩], some 1995, 50⟩ =
       ([⟨0, "13.99JA", "", some 1⟩], [])) ∧
    ((⟨[⟨1995, "03.03DF", "", some 1⟩], some 1995, 159⟩ :
        CallbackInfo).slotTime = some 1995 ∧
     ([(⟨0, "13.99JA", "", some 1⟩ : Billing)].filter
        (ghostBeforePred 1995)).length * JA_VALUE ≤ 159 ∧
     applyCallbackStep ([⟨0, "13.99JA", "", some 1⟩], [])
        ⟨[⟨1995, "03.03DF", "", some 1⟩], some 1995, 159⟩ =
       ([], [⟨1995, "03.03DF", "", some 1⟩])) :=
  ⟨⟨rfl, by decide,
    (claim_C1 ([⟨0, "13.99JA", "", some 1⟩], [])
      ⟨[⟨1995, "03.03DF", "", some 1⟩], some 1995, 50⟩ 1995 rfl).1
      (by decide)⟩,
   ⟨rfl, by decide, by
     have h := (claim_C1 ([⟨0, "13.99JA", "", some 1⟩], [])
       ⟨[⟨1995, "03.03DF", "", some 1⟩], some 1995, 159⟩ 1995 rfl).2
       (by decide)
     rw [h]
     decide⟩⟩

/-- An induction event is skipped (state unchanged) when 4 inductions are
already billed or 2 billed times lie within the rolling 24-hour window
before it (boundary-inclusive on the lower side). -/
theorem statusEventStep_skip (db : DB) (allow : Bool)
    (st : List Billing × List Int) (e : StatusEvent) (t : Int)
    (he : e.status = "Induction") (ht : e.occurred_at = some t)
    (h : st.2.length ≥ INDUCTION_TOTAL_LIMIT ∨
      (st.2.filter (fun u =>
        decide (t - u < INDUCTION_WINDOW_MS) && decide (t ≥ u))).length ≥
        INDUCTION_DAILY_LIMIT) :
    statusEventStep db allow st e = st := by
  unfold statusEventStep
  rw [ht]
  dsimp only
  rw [if_pos he]
  rcases h with h | h
  · rw [if_pos h]
  · by_cases h4 : st.2.length ≥ INDUCTION_TOTAL_LIMIT
    · rw [if_pos h4]
    · rw [if_neg h4, if_pos h]

/-- An induction event is billed (one 85.5A line, plus an 87.54A extra
when flagged, and its time recorded) when neither cap applies. -/
theorem statusEventStep_bill (db : DB) (allow : Bool)
    (st : List Billing × List Int) (e : StatusEvent) (t : Int)
    (he : e.status = "Induction") (ht : e.occurred_at = some t)
    (h4 : st.2.length < INDUCTION_TOTAL_LIMIT)
    (h2 : (st.2.filter (fun u =>
      decide (t - u < INDUCTION_WINDOW_MS) && decide (t ≥ u))).length <
      INDUCTION_DAILY_LIMIT) :
    statusEventStep db allow st e =
      (st.1 ++ [⟨t, "85.5A", afterHoursModifier t, doctorOf db e.doctor_id⟩]
        ++ (if e.induction_non_stress_test then
            [⟨t, "87.54A", "", doctorOf db e.doctor_id⟩] else []),
       st.2 ++ [t]) := by
  unfold statusEventStep
  rw [ht]
  dsimp only
  rw [if_pos he, if_neg (by omega), if_neg (by omega)]
  rw [List.append_assoc]

theorem mkInd_patient_id (pid : Nat) (t : Int) : (mkInd pid t).patient_id = pid := rfl
theorem mkInd_status (pid : Nat) (t : Int) : (mkInd pid t).status = "Induction" := rfl
theorem mkInd_occurred (pid : Nat) (t : Int) : (mkInd pid t).occurred_at = some t := rfl
theorem mkInd_nst (pid : Nat) (t : Int) : (mkInd pid t).induction_non_stress_test = false := rfl
theorem mkInd_doctor (pid : Nat) (t : Int) : (mkInd pid t).doctor_id = none := rfl

theorem inductionsSameDay (pid : Nat) (t1 t2 t3 t4 t5 : Int)
    (h12 : t1 ≤ t2) (h23 : t2 ≤ t3) (h34 : t3 ≤ t4) (h45 : t4 ≤ t5)
    (hw : t5 - t1 < INDUCTION_WINDOW_MS) :
    ((buildStatusEventBillings (dbInductions pid t1 t2 t3 t4 t5) pid
        true).filter (fun b => b.code = "85.5A")).length = 2 := by
  have hchain : jsSortBy leOccurred
      [mkInd pid t1, mkInd pid t2, mkInd pid t3, mkInd pid t4, mkInd pid t5] =
      [mkInd pid t1, mkInd pid t2, mkInd pid t3, mkInd pid t4, mkInd pid t5] := by
    apply jsSortBy_of_chain
    simp only [List.chain'_cons, List.chain'_singleton, leOccurred,
      mkInd_occurred, and_true, decide_eq_true_eq]
    omega
  unfold buildStatusEventBillings dbInductions
  simp only [List.filter, mkInd_patient_id, mkInd_status, eq_self_iff_true,
    true_and, true_or, decide_True]
  rw [hchain]
  rw [if_neg (by simp)]
  simp only [List.foldl_cons, List.foldl_nil]
  rw [statusEventStep_bill _ true ([], []) (mkInd pid t1) t1 rfl rfl
    (by norm_num [INDUCTION_TOTAL_LIMIT])
    (by simp only [List.filter_nil, List.length_nil]
        norm_num [INDUCTION_DAILY_LIMIT])]
  rw [statusEventStep_bill _ true _ (mkInd pid t2) t2 rfl rfl
    (by simp only [List.nil_append, List.length_append, List.length_cons,
          List.length_nil]
        norm_num [INDUCTION_TOTAL_LIMIT])
    (by simp only [List.nil_append]
        exact lt_of_le_of_lt (List.length_filter_le _ _)
          (by norm_num [INDUCTION_DAILY_LIMIT]))]
  rw [statusEventStep_skip _ true _ (mkInd pid t3) t3 rfl rfl
    (Or.inr (by
      have hp1 : (decide (t3 - t1 < INDUCTION_WINDOW_MS) &&
          decide (t3 ≥ t1)) = true := by
        simp only [Bool.and_eq_true, decide_eq_true_eq]
        unfold INDUCTION_WINDOW_MS at hw ⊢
        omega
      have hp2 : (decide (t3 - t2 < INDUCTION_WINDOW_MS) &&
          decide (t3 ≥ t2)) = true := by
        simp only [Bool.and_eq_true, decide_eq_true_eq]
        unfold INDUCTION_WINDOW_MS at hw ⊢
        omega
      simp only [List.nil_append, List.singleton_append, List.filter_cons,
        List.filter_nil, hp1, hp2, if_true, List.length_cons, List.length_nil]
      norm_num [INDUCTION_DAILY_LIMIT]))]
  rw [statusEventStep_skip _ true _ (mkInd pid t4) t4 rfl rfl
    (Or.inr (by
      have hp1 : (decide (t4 - t1 < INDUCTION_WINDOW_MS) &&
          decide (t4 ≥ t1)) = true := by
        simp only [Bool.and_eq_true, decide_eq_true_eq]
        unfold INDUCTION_WINDOW_MS at hw ⊢
        omega
      have hp2 : (decide (t4 - t2 < INDUCTION_WINDOW_MS) &&
          decide (t4 ≥ t2)) = true := by
        simp only [Bool.and_eq_true, decide_eq_true_eq]
        unfold INDUCTION_WINDOW_MS at hw ⊢
        omega
      simp only [List.nil_append, List.singleton_append, List.filter_cons,
        List.filter_nil, hp1, hp2, if_true, List.length_cons, List.length_nil]
      norm_num [INDUCTION_DAILY_LIMIT]))]
  rw [statusEventStep_skip _ true _ (mkInd pid t5) t5 rfl rfl
    (Or.inr (by
      have hp1 : (decide (t5 - t1 < INDUCTION_WINDOW_MS) &&
          decide (t5 ≥ t1)) = true := by
        simp only [Bool.and_eq_true, decide_eq_true_eq]
        unfold INDUCTION_WINDOW_MS at hw ⊢
        omega
      have hp2 : (decide (t5 - t2 < INDUCTION_WINDOW_MS) &&
          decide (t5 ≥ t2)) = true := by
        simp only [Bool.and_eq_true, decide_eq_true_eq]
        unfold INDUCTION_WINDOW_MS at hw ⊢
        omega
      simp only [List.nil_append, List.singleton_append, List.filter_cons,
        List.filter_nil, hp1, hp2, if_true, List.length_cons, List.length_nil]
      norm_num [INDUCTION_DAILY_LIMIT]))]
  simp [mkInd_nst]

theorem inductionsSeparateDays (pid : Nat) (t1 t2 t3 t4 t5 : Int)
    (hg12 : t1 + INDUCTION_WINDOW_MS ≤ t2)
    (hg23 : t2 + INDUCTION_WINDOW_MS ≤ t3)
    (hg34 : t3 + INDUCTION_WINDOW_MS ≤ t4)
    (hg45 : t4 + INDUCTION_WINDOW_MS ≤ t5) :
    ((buildStatusEventBillings (dbInductions pid t1 t2 t3 t4 t5) pid
        true).filter (fun b => b.code = "85.5A")).length = 4 := by
  have hchain : jsSortBy leOccurred
      [mkInd pid t1, mkInd pid t2, mkInd pid t3, mkInd pid t4, mkInd pid t5] =
      [mkInd pid t1, mkInd pid t2, mkInd pid t3, mkInd pid t4, mkInd pid t5] := by
    apply jsSortBy_of_chain
    simp only [List.chain'_cons, List.chain'_singleton, leOccurred,
      mkInd_occurred, and_true, decide_eq_true_eq]
    unfold INDUCTION_WINDOW_MS at hg12 hg23 hg34 hg45
    omega
  unfold buildStatusEventBillings dbInductions
  simp only [List.filter, mkInd_patient_id, mkInd_status, eq_self_iff_true,
    true_and, true_or, decide_True]
  rw [hchain]
  rw [if_neg (by simp)]
  simp only [List.foldl_cons, List.foldl_nil]
  rw [statusEventStep_bill _ true ([], []) (mkInd pid t1) t1 rfl rfl
    (by norm_num [INDUCTION_TOTAL_LIMIT])
    (by simp only [List.filter_nil, List.length_nil]
        norm_num [INDUCTION_DAILY_LIMIT])]
  rw [statusEventStep_bill _ true _ (mkInd pid t2) t2 rfl rfl
    (by simp
        norm_num [INDUCTION_TOTAL_LIMIT])
    (by
      have hp1 : (decide (t2 - t1 < INDUCTION_WINDOW_MS) &&
          decide (t2 ≥ t1)) = false := by
        simp only [Bool.and_eq_false_iff, decide_eq_false_iff_not, not_lt]
        left
        unfold INDUCTION_WINDOW_MS at hg12 ⊢
        omega
      simp [hp1, INDUCTION_DAILY_LIMIT])]
  rw [statusEventStep_bill _ true _ (mkInd pid t3) t3 rfl rfl
    (by simp
        norm_num [INDUCTION_TOTAL_LIMIT])
    (by
      have hp1 : (decide (t3 - t1 < INDUCTION_WINDOW_MS) &&
          decide (t3 ≥ t1)) = false := by
        simp only [Bool.and_eq_false_iff, decide_eq_false_iff_not, not_lt]
        left
        unfold INDUCTION_WINDOW_MS at hg12 hg23 ⊢
        omega
      have hp2 : (decide (t3 - t2 < INDUCTION_WINDOW_MS) &&
          decide (t3 ≥ t2)) = false := by
        simp only [Bool.and_eq_false_iff, decide_eq_false_iff_not, not_lt]
        left
        unfold INDUCTION_WINDOW_MS at hg23 ⊢
        omega
      simp [hp1, hp2, INDUCTION_DAILY_LIMIT])]
  rw [statusEventStep_bill _ true _ (mkInd pid t4) t4 rfl rfl
    (by simp
        norm_num [INDUCTION_TOTAL_LIMIT])
    (by
      have hp1 : (decide (t4 - t1 < INDUCTION_WINDOW_MS) &&
          decide (t4 ≥ t1)) = false := by
        simp only [Bool.and_eq_false_iff, decide_eq_false_iff_not, not_lt]
        left
        unfold INDUCTION_WINDOW_MS at hg12 hg23 hg34 ⊢
        omega
      have hp2 : (decide (t4 - t2 < INDUCTION_WINDOW_MS) &&
          decide (t4 ≥ t2)) = false := by
        simp only [Bool.and_eq_false_iff, decide_eq_false_iff_not, not_lt]
        left
        unfold INDUCTION_WINDOW_MS at hg23 hg34 ⊢
        omega
      have hp3 : (decide (t4 - t3 < INDUCTION_WINDOW_MS) &&
          decide (t4 ≥ t3)) = false := by
        simp only [Bool.and_eq_false_iff, decide_eq_false_iff_not, not_lt]
        left
        unfold INDUCTION_WINDOW_MS at hg34 ⊢
        omega
      simp [hp1, hp2, hp3, INDUCTION_DAILY_LIMIT])]
  rw [statusEventStep_skip _ true _ (mkInd pid t5) t5 rfl rfl
    (Or.inl (by simp
                norm_num [INDUCTION_TOTAL_LIMIT]))]
  simp [mkInd_nst]

/-- C7: processing Induction events chronologically, an induction is
skipped when 4 are already billed or 2 already-billed times lie within
the preceding rolling 24 hours (boundary-inclusive below, exclusive at
exactly 24 h), and billed otherwise; consequently 5 inductions inside one
24-hour span yield exactly 2 billed 85.5A lines and 5 inductions at least
24 hours apart yield exactly 4. -/
theorem claim_C7 :
    (∀ (db : DB) (allow : Bool) (st : List Billing × List Int)
        (e : StatusEvent) (t : Int), e.status = "Induction" →
        e.occurred_at = some t →
        (st.2.length ≥ INDUCTION_TOTAL_LIMIT ∨
         (st.2.filter (fun u => decide (t - u < INDUCTION_WINDOW_MS) &&
           decide (t ≥ u))).length ≥ INDUCTION_DAILY_LIMIT) →
        statusEventStep db allow st e = st) ∧
    (∀ (db : DB) (allow : Bool) (st : List Billing × List Int)
        (e : StatusEvent) (t : Int), e.status = "Induction" →
        e.occurred_at = some t →
        st.2.length < INDUCTION_TOTAL_LIMIT →
        (st.2.filter (fun u => decide (t - u < INDUCTION_WINDOW_MS) &&
          decide (t ≥ u))).length < INDUCTION_DAILY_LIMIT →
        statusEventStep db allow st e =
          (st.1 ++
            [⟨t, "85.5A", afterHoursModifier t, doctorOf db e.doctor_id⟩] ++
            (if e.induction_non_stress_test then
              [⟨t, "87.54A", "", doctorOf db e.doctor_id⟩] else []),
           st.2 ++ [t])) ∧
    (∀ (pid : Nat) (t1 t2 t3 t4 t5 : Int), t1 ≤ t2 → t2 ≤ t3 → t3 ≤ t4 →
      t4 ≤ t5 → t5 - t1 < INDUCTION_WINDOW_MS →
      ((buildStatusEventBillings (dbInductions pid t1 t2 t3 t4 t5) pid
          true).filter (fun b => b.code = "85.5A")).length = 2) ∧
    (∀ (pid : Nat) (t1 t2 t3 t4 t5 : Int), t1 + INDUCTION_WINDOW_MS ≤ t2 →
      t2 + INDUCTION_WINDOW_MS ≤ t3 → t3 + INDUCTION_WINDOW_MS ≤ t4 →
      t4 + INDUCTION_WINDOW_MS ≤ t5 →
      ((buildStatusEventBillings (dbInductions pid t1 t2 t3 t4 t5) pid
          true).filter (fun b => b.code = "85.5A")).length = 4) :=
  ⟨statusEventStep_skip, statusEventStep_bill, inductionsSameDay,
   inductionsSeparateDays⟩

/-- Witness for C7: five inductions within 40 minutes bill exactly 2,
five inductions 24 hours apart bill exactly 4, and an induction arriving
with 4 already billed is skipped. -/
theorem claim_C7_witness :
    ((buildStatusEventBillings (dbInductions 1 0 10 20 30 40) 1
        true).filter (fun b => b.code = "85.5A")).length = 2 ∧
    ((buildStatusEventBillings (dbInductions 1 0 1440 2880 4320 5760) 1
        true).filter (fun b => b.code = "85.5A")).length = 4 ∧
    statusEventStep dbDoctors1 true ([], [0, 5, 10, 20]) (mkInd 1 30) =
      ([], [0, 5, 10, 20]) :=
  ⟨(claim_C7.2.2.1) 1 0 10 20 30 40 (by norm_num) (by norm_num)
     (by norm_num) (by norm_num) (by decide),
   (claim_C7.2.2.2) 1 0 1440 2880 4320 5760 (by decide) (by decide)
     (by decide) (by decide),
   (claim_C7.1) dbDoctors1 true ([], [0, 5, 10, 20]) (mkInd 1 30) 30 rfl rfl
     (Or.inl (by decide))⟩

/-! ### Code inventories of the individual builders -/

/-- Weakening of a code inventory to a larger inventory. -/
theorem mem_sublist_codes {c : String} {L1 L2 : List String} (h : c ∈ L1)
    (hsub : ∀ x ∈ L1, x ∈ L2) : c ∈ L2 := hsub c h

theorem reassessmentBaseCode_mem (t : Int) :
    reassessmentBaseCode t ∈ ["03.05FB", "03.05FA", "03.05F"] := by
  unfold reassessmentBaseCode
  dsimp only
  split_ifs <;> simp

theorem callbackCodeForTriage_mem (t : Int) :
    callbackCodeForTriage t ∈ ["03.03MD", "03.03MC", "03.03LA", "03.03KA"] := by
  unfold callbackCodeForTriage
  dsimp only
  split_ifs <;> simp

theorem callbackCodeForInpatient_mem (t : Int) :
    callbackCodeForInpatient t ∈ ["03.05QB", "03.05QA", "03.05P"] := by
  unfold callbackCodeForInpatient
  dsimp only
  split_ifs <;> simp

theorem BillingI_clean_code (b : BillingI) : (BillingI.clean b).code = b.code :=
  rfl

/-- Codes emitted by the triage builder. -/
theorem buildTriageBillings_codes (db : DB) (ts : List TSlot) (allow : Bool)
    (b : Billing) (hb : b ∈ buildTriageBillings db ts allow) :
    b.code ∈ ["03.03BZ", "03.05FB", "03.05FA", "03.05F", "87.54A",
      "13.99BE"] := by
  rcases mem_buildTriageBillings hb with h | h | h
  · rw [(triageVisitPart_mem db ts allow b h).1]
    simp
  · unfold triageReassessPart at h
    dsimp only at h
    rw [List.mem_flatMap] at h
    obtain ⟨g, _, hbg⟩ := h
    revert hbg
    split
    · intro h2; cases h2
    · intro h2
      rw [List.mem_singleton] at h2
      subst h2
      exact mem_sublist_codes (reassessmentBaseCode_mem _) (by decide)
  · unfold triageExtrasPart at h
    rw [List.mem_flatMap] at h
    obtain ⟨sl, _, hbg⟩ := h
    rw [List.mem_append] at hbg
    rcases hbg with h2 | h2 <;> revert h2 <;> split <;> intro h2
    · rw [List.mem_singleton] at h2; subst h2; simp
    · cases h2
    · rw [List.mem_singleton] at h2; subst h2; simp
    · cases h2

/-- Codes emitted by the supportive-care builder. -/
theorem buildSupportiveCareBillings_code (db : DB) (patient : Patient)
    (b : Billing) (hb : b ∈ buildSupportiveCareBillings db patient) :
    b.code = "03.05M" := by
  unfold buildSupportiveCareBillings at hb
  split at hb
  · cases hb
  · rw [List.mem_filterMap] at hb
    obtain ⟨sl, _, hb2⟩ := hb
    revert hb2
    split
    · intro h; cases h
    · intro h
      rw [Option.some_inj] at h
      subst h
      rfl

/-- Codes emitted by the after-hours premium builder. -/
theorem buildAfterHoursPremiumBillings_code (db : DB) (patient : Patient)
    (admitted delivered : Int) (windows : List ShiftWindow) (b : Billing)
    (hb : b ∈ buildAfterHoursPremiumBillings db patient admitted delivered
      windows) : b.code = "03.01AA" := by
  unfold buildAfterHoursPremiumBillings at hb
  split at hb
  · cases hb
  · rw [List.mem_flatMap] at hb
    obtain ⟨entry, _, hb2⟩ := hb
    revert hb2
    dsimp only
    split
    · intro h; cases h
    · intro h
      rw [List.mem_singleton] at h
      subst h
      rfl

/-- Codes of the delivery complication extras. -/
theorem deliveryExtras_codes (ds : Slot) (t : Int) (doctor : Option Nat)
    (m : String) (b : Billing) (hb : b ∈ deliveryExtras ds t doctor m) :
    b.code ∈ ["87.99A", "84.21", "87.89B", "85.69B", "87.6"] := by
  unfold deliveryExtras at hb
  simp only [List.mem_append] at hb
  rcases hb with ((((h | h) | h) | h) | h) <;> revert h <;> split <;>
    intro h <;> simp_all

/-- Codes of the billing lines of every callback info record. -/
theorem buildCallbackBillingInfo_codes (db : DB) (patient : Patient)
    (windows : List ShiftWindow) (info : CallbackInfo)
    (hi : info ∈ buildCallbackBillingInfo db patient windows) (b : Billing)
    (hb : b ∈ info.billings) :
    b.code ∈ ["03.03MD", "03.03MC", "03.03LA", "03.03KA", "03.03DF",
      "03.05QB", "03.05QA", "03.05P"] := by
  unfold buildCallbackBillingInfo at hi
  rw [List.mem_filter] at hi
  obtain ⟨hi, _⟩ := hi
  rw [List.mem_map] at hi
  obtain ⟨w, _, hw⟩ := hi
  subst hw
  revert hb
  split
  · intro h; cases h
  · split
    · intro h; cases h
    · split
      · intro h; cases h
      · dsimp only
        split
        · intro hb
          rw [List.mem_singleton] at hb
          subst hb
          exact mem_sublist_codes (callbackCodeForTriage_mem _) (by decide)
        · split
          · split
            · intro hb
              simp only [List.mem_cons, List.mem_singleton] at hb
              rcases hb with hb | hb | hb
              · subst hb; simp
              · subst hb
                exact mem_sublist_codes (callbackCodeForInpatient_mem _)
                  (by decide)
              · cases hb
            · intro h; cases h
          · intro h; cases h

/-- Fold invariant: codes of the status-event billing lines. -/
theorem statusFold_codes (db : DB) (allow : Bool)
    (events : List StatusEvent) :
    ∀ (st : List Billing × List Int),
      (∀ b ∈ st.1, b.code = "85.5A" ∨ b.code = "87.54A" ∨
        (b.code = "87.54B" ∧ allow = true)) →
      ∀ b ∈ (events.foldl (statusEventStep db allow) st).1,
        b.code = "85.5A" ∨ b.code = "87.54A" ∨
        (b.code = "87.54B" ∧ allow = true) := by
  induction events with
  | nil => intro st h; exact h
  | cons e rest ih =>
    intro st h
    rw [List.foldl_cons]
    apply ih
    intro b hb
    unfold statusEventStep at hb
    revert hb
    split
    · exact h b
    · split
      · split
        · exact h b
        · dsimp only
          split
          · exact h b
          · intro hb
            rw [List.mem_append] at hb
            rcases hb with hb | hb
            · exact h b hb
            · rw [List.mem_append] at hb
              rcases hb with hb | hb
              · rw [List.mem_singleton] at hb
                subst hb
                left
                rfl
              · revert hb
                split
                · intro hb
                  rw [List.mem_singleton] at hb
                  subst hb
                  right
                  left
                  rfl
                · intro hb; cases hb
      · split
        · split
          · intro hb
            rw [List.mem_append] at hb
            rcases hb with hb | hb
            · exact h b hb
            · rw [List.mem_singleton] at hb
              subst hb
              right
              right
              exact ⟨rfl, by assumption⟩
          · exact h b
        · exact h b

/-- Codes emitted by the status-event builder; an 87.54B line implies
continuous monitoring was allowed. -/
theorem buildStatusEventBillings_codes (db : DB) (pid : Nat) (allow : Bool)
    (b : Billing) (hb : b ∈ buildStatusEventBillings db pid allow) :
    b.code = "85.5A" ∨ b.code = "87.54A" ∨
    (b.code = "87.54B" ∧ allow = true) := by
  unfold buildStatusEventBillings at hb
  revert hb
  dsimp only
  split
  · intro h; cases h
  · intro hb
    exact statusFold_codes db allow _ ([], []) (by intro b h; cases h) b hb

/-- A successful doctor lookup returns the queried id. -/
theorem lookupDoctor_eq (db : DB) (id did : Nat)
    (h : lookupDoctor db id = some did) : did = id := by
  unfold lookupDoctor at h
  split at h
  · exact (Option.some_inj.mp h).symm
  · cases h

/-- Every finalized JA line carries the 13.99JA code and the shift
doctor. -/
theorem jaFinalize_mem (encS attT : List Int) (did : Nat)
    (sel : List (Int × SlotC)) (b : BillingI)
    (hb : b ∈ jaFinalize encS attT did sel) :
    b.code = "13.99JA" ∧ b.doctor = some did := by
  unfold jaFinalize at hb
  rw [List.mem_map] at hb
  obtain ⟨s, _, hs⟩ := hb
  subst hs
  exact ⟨rfl, rfl⟩

/-- Membership in an if-then-else list comes from one of the branches. -/
theorem mem_ite_list {α : Type} {c : Prop} [Decidable c] {l1 l2 : List α}
    {b : α} (h : b ∈ (if c then l1 else l2)) : b ∈ l1 ∨ b ∈ l2 := by
  by_cases hc : c
  · rw [if_pos hc] at h
    exact Or.inl h
  · rw [if_neg hc] at h
    exact Or.inr h

/-- Every line of the per-window JA scheduler carries the 13.99JA code
and the window's doctor. -/
theorem buildJaBillingsForWindow_mem (db : DB) (admitted delivered : Int)
    (scopedSlots : List Slot) (deliveredTime : Option Int)
    (otherPatients : List OtherPatient) (w : ShiftWindow) (b : BillingI)
    (hb : b ∈ buildJaBillingsForWindow db admitted delivered scopedSlots
      deliveredTime otherPatients w) :
    b.code = "13.99JA" ∧ b.doctor = some w.doctor_id := by
  unfold buildJaBillingsForWindow at hb
  revert hb
  split
  · intro h; cases h
  · rename_i did heq
    have hdid : did = w.doctor_id := lookupDoctor_eq db w.doctor_id did heq
    subst hdid
    dsimp only
    intro hb
    rcases mem_ite_list hb with h | h
    · cases h
    · rcases mem_ite_list h with h2 | h2
      · cases h2
      · rcases mem_ite_list h2 with h3 | h3
        · exact jaFinalize_mem _ _ _ _ b h3
        · exact jaFinalize_mem _ _ _ _ b h3

/-! ### Counting 13.99JA lines -/

/-- The capped-and-cleaned stage never holds more than 12 lines with the
13.99JA code. -/
theorem windowFilteredStart_countJA (billings1 : List BillingI) :
    (windowFilteredStart billings1).countP
      (fun b => decide (b.code = "13.99JA")) ≤ 12 := by
  unfold windowFilteredStart
  dsimp only
  rw [List.countP_append]
  have h1 : (List.map BillingI.clean (billings1.filter
      (fun b => decide (b.code ≠ "13.99JA")))).countP
      (fun b => decide (b.code = "13.99JA")) = 0 := by
    rw [List.countP_eq_zero]
    intro b hb
    rw [List.mem_map] at hb
    obtain ⟨bi, hbi, hc⟩ := hb
    rw [List.mem_filter] at hbi
    subst hc
    simpa using hbi.2
  rw [h1]
  have h2 : (List.map BillingI.clean ((jsSortBy jaCapLe (billings1.filter
      (fun b => decide (b.code = "13.99JA")))).take 12)).countP
      (fun b => decide (b.code = "13.99JA")) ≤ 12 := by
    refine le_trans (List.countP_le_length _) ?_
    rw [List.length_map]
    exact (List.length_take_le _ _)
  omega

/-- The callback merge only ever removes lines from the filtered list. -/
theorem applyCallbacks_fst_sublist (infos : List CallbackInfo) :
    ∀ st : List Billing × List Billing,
      (infos.foldl applyCallbackStep st).1.Sublist st.1 := by
  induction infos with
  | nil => intro st; exact List.Sublist.refl _
  | cons i rest ih =>
    intro st
    rw [List.foldl_cons]
    refine (ih (applyCallbackStep st i)).trans ?_
    unfold applyCallbackStep
    split
    · exact List.Sublist.refl _
    · dsimp only
      split
      · exact List.Sublist.refl _
      · exact List.filter_sublist _

/-- The merged callback lines satisfy any property the callback infos
satisfy. -/
theorem applyCallbacks_snd_codes (p : Billing → Prop) :
    ∀ (infos : List CallbackInfo) (st : List Billing × List Billing),
      (∀ i ∈ infos, ∀ b ∈ i.billings, p b) → (∀ b ∈ st.2, p b) →
      ∀ b ∈ (infos.foldl applyCallbackStep st).2, p b := by
  intro infos
  induction infos with
  | nil => intro st _ h; exact h
  | cons i rest ih =>
    intro st hinfos h
    rw [List.foldl_cons]
    apply ih _ (fun j hj => hinfos j (List.mem_cons_of_mem i hj))
    intro b hb
    unfold applyCallbackStep at hb
    revert hb
    split
    · exact h b
    · dsimp only
      split
      · exact h b
      · intro hb
        rw [List.mem_append] at hb
        rcases hb with hb | hb
        · exact h b hb
        · exact hinfos i (List.mem_cons_self i rest) b hb

/-- The OB/VBAC path emits no 13.99JA line at all. -/
theorem obPathBillings_countJA (db : DB) (patient : Patient)
    (primary : Option ShiftWindow) (sortedScoped : List Slot)
    (deliverySlot : Option Slot) (deliveredTime : Option Int)
    (deliveryCode : String)
    (triageBillings afterHoursBillings : List Billing)
    (callbackInfos : List CallbackInfo)
    (hdc : deliveryCode = "87.98B" ∨ deliveryCode = "87.98C")
    (htri : ∀ b ∈ triageBillings, b.code ≠ "13.99JA")
    (hafter : ∀ b ∈ afterHoursBillings, b.code ≠ "13.99JA")
    (hcb : ∀ i ∈ callbackInfos, ∀ b ∈ i.billings, b.code ≠ "13.99JA") :
    (obPathBillings db patient primary sortedScoped deliverySlot
      deliveredTime deliveryCode triageBillings afterHoursBillings
      callbackInfos).countP (fun b => decide (b.code = "13.99JA")) = 0 := by
  unfold obPathBillings
  dsimp only
  rw [countP_jsSortBy, List.countP_eq_zero]
  intro b hb
  simp only [List.mem_append] at hb
  simp only [decide_eq_true_eq]
  rcases hb with ((((hb | hb) | hb) | hb) | hb) | hb
  · rcases hb with hb | hb
    · rw [List.mem_map] at hb
      obtain ⟨s, _, hs⟩ := hb
      subst hs
      show "03.03AR" ≠ "13.99JA"
      decide
    · revert hb
      split
      · intro hb
        rw [List.mem_append] at hb
        rcases hb with hb | hb
        · rw [List.mem_singleton] at hb
          subst hb
          show deliveryCode ≠ "13.99JA"
          rcases hdc with h | h <;> rw [h] <;> decide
        · intro hc
          have := deliveryExtras_codes _ _ _ _ b hb
          rw [hc] at this
          revert this
          decide
      · intro hb; cases hb
  · exact htri b hb
  · intro hc
    rcases buildStatusEventBillings_codes db patient.id true b hb with
      h | h | ⟨h, _⟩ <;> rw [hc] at h <;> revert h <;> decide
  · rw [List.mem_flatMap] at hb
    obtain ⟨i, hi, hbi⟩ := hb
    exact hcb i hi b hbi
  · exact hafter b hb
  · intro hc
    have := buildSupportiveCareBillings_code db patient b hb
    rw [hc] at this
    revert this
    decide

/-- A list with no 13.99JA code has 13.99JA count zero. -/
theorem countJA_of_forall {l : List Billing}
    (h : ∀ b ∈ l, b.code ≠ "13.99JA") :
    l.countP (fun b => decide (b.code = "13.99JA")) = 0 := by
  rw [List.countP_eq_zero]
  intro b hb
  simpa using h b hb

/-- The status-event builder never emits 13.99JA. -/
theorem countJA_status (db : DB) (pid : Nat) (allow : Bool) :
    (buildStatusEventBillings db pid allow).countP
      (fun b => decide (b.code = "13.99JA")) = 0 := by
  apply countJA_of_forall
  intro b hb hc
  rcases buildStatusEventBillings_codes db pid allow b hb with
    h | h | ⟨h, _⟩ <;> rw [hc] at h <;> revert h <;> decide

/-- The supportive-care builder never emits 13.99JA. -/
theorem countJA_supportive (db : DB) (p : Patient) :
    (buildSupportiveCareBillings db p).countP
      (fun b => decide (b.code = "13.99JA")) = 0 := by
  apply countJA_of_forall
  intro b hb hc
  have := buildSupportiveCareBillings_code db p b hb
  rw [hc] at this
  revert this
  decide

/-- The callback-merge fold of the window path yields no 13.99JA callback
line. -/
theorem countJA_fold_snd (callbackInfos : List CallbackInfo)
    (B1 : List BillingI)
    (hcb : ∀ i ∈ callbackInfos, ∀ b ∈ i.billings, b.code ≠ "13.99JA") :
    (List.foldl applyCallbackStep (windowFilteredStart B1, [])
      (jsSortBy (fun a b => decide (a.slotTime.getD 0 ≤ b.slotTime.getD 0))
        (callbackInfos.filter (fun i =>
          i.slotTime.isSome && decide (i.billings ≠ []))))).2.countP
      (fun b => decide (b.code = "13.99JA")) = 0 := by
  apply countJA_of_forall
  apply applyCallbacks_snd_codes (fun b => b.code ≠ "13.99JA")
  · intro i hi b hb
    rw [mem_jsSortBy, List.mem_filter] at hi
    exact hcb i hi.1 b hb
  · intro b h
    cases h

/-- The filtered list of the window path keeps at most 12 13.99JA lines. -/
theorem countJA_fold_fst (callbackInfos : List CallbackInfo)
    (B1 : List BillingI) :
    (List.foldl applyCallbackStep (windowFilteredStart B1, [])
      (jsSortBy (fun a b => decide (a.slotTime.getD 0 ≤ b.slotTime.getD 0))
        (callbackInfos.filter (fun i =>
          i.slotTime.isSome && decide (i.billings ≠ []))))).1.countP
      (fun b => decide (b.code = "13.99JA")) ≤ 12 :=
  le_trans ((applyCallbacks_fst_sublist _ _).countP_le _)
    (windowFilteredStart_countJA B1)

/-- The non-OB window path keeps at most 12 lines with the 13.99JA code. -/
theorem windowPathBillings_countJA (db : DB) (patient : Patient)
    (activeShiftWindows : List ShiftWindow) (primary : ShiftWindow)
    (admitted delivered : Int) (scopedSlots : List Slot)
    (deliverySlot : Option Slot) (deliveredTime : Option Int)
    (deliveryCode : String)
    (triageBillings afterHoursBillings : List Billing)
    (callbackInfos : List CallbackInfo)
    (htri : ∀ b ∈ triageBillings, b.code ≠ "13.99JA")
    (hafter : ∀ b ∈ afterHoursBillings, b.code ≠ "13.99JA")
    (hcb : ∀ i ∈ callbackInfos, ∀ b ∈ i.billings, b.code ≠ "13.99JA") :
    (windowPathBillings db patient activeShiftWindows primary admitted
      delivered scopedSlots deliverySlot deliveredTime deliveryCode
      triageBillings afterHoursBillings callbackInfos).countP
      (fun b => decide (b.code = "13.99JA")) ≤ 12 := by
  unfold windowPathBillings
  dsimp only
  rw [countP_jsSortBy]
  simp only [List.countP_append]
  rw [countJA_of_forall htri, countJA_of_forall hafter, countJA_status,
    countJA_supportive, countJA_fold_snd _ _ hcb]
  simp only [Nat.add_zero, Nat.zero_add]
  exact countJA_fold_fst _ _

/-- The triage builder never emits 13.99JA. -/
theorem triage_ne_ja (db : DB) (ts : List TSlot) (allow : Bool) :
    ∀ b ∈ buildTriageBillings db ts allow, b.code ≠ "13.99JA" := by
  intro b hb hc
  have := buildTriageBillings_codes db ts allow b hb
  rw [hc] at this
  revert this
  decide

/-- The after-hours premium builder never emits 13.99JA. -/
theorem afterHours_ne_ja (db : DB) (p : Patient) (a d : Int)
    (ws : List ShiftWindow) :
    ∀ b ∈ buildAfterHoursPremiumBillings db p a d ws,
      b.code ≠ "13.99JA" := by
  intro b hb hc
  have := buildAfterHoursPremiumBillings_code db p a d ws b hb
  rw [hc] at this
  revert this
  decide

/-- Callback infos never carry 13.99JA lines. -/
theorem callback_ne_ja (db : DB) (p : Patient) (ws : List ShiftWindow) :
    ∀ i ∈ buildCallbackBillingInfo db p ws, ∀ b ∈ i.billings,
      b.code ≠ "13.99JA" := by
  intro i hi b hb hc
  have := buildCallbackBillingInfo_codes db p ws i hi b hb
  rw [hc] at this
  revert this
  decide

/-- C2: for every patient and every input, the list returned by
buildOptimizedBillings contains at most 12 entries with code 13.99JA; the
cap is applied to the union of all windows' candidates, re-ranked by
priority, weight and time, before entries beyond 12 are dropped. -/
theorem claim_C2 (db : DB) (patient : Patient) (patientSlots : List Slot)
    (windows : List ShiftWindow) :
    ((buildOptimizedBillings db patient patientSlots windows).filter
      (fun b => b.code = "13.99JA")).length ≤ 12 := by
  rw [← List.countP_eq_length_filter]
  unfold buildOptimizedBillings
  split
  · rename_i admitted delivered
    split
    · simp
    · dsimp only
      split
      · rename_i hob
        simp only [Bool.or_eq_true, Bool.and_eq_true, decide_eq_true_eq]
          at hob
        refine le_trans (le_of_eq (obPathBillings_countJA _ _ _ _ _ _ _ _ _
          _ ?_ (triage_ne_ja _ _ _) (afterHours_ne_ja _ _ _ _ _)
          (callback_ne_ja _ _ _))) (by norm_num)
        rcases hob with ⟨_, hdc⟩ | ⟨_, hdc⟩
        · exact Or.inl hdc
        · exact Or.inr hdc
      · split
        · rw [countP_jsSortBy]
          simp only [List.countP_append]
          rw [countJA_of_forall (triage_ne_ja _ _ _), countJA_status,
            countJA_of_forall (afterHours_ne_ja _ _ _ _ _),
            countJA_supportive]
          norm_num
        · exact windowPathBillings_countJA _ _ _ _ _ _ _ _ _ _ _ _ _
            (triage_ne_ja _ _ _) (afterHours_ne_ja _ _ _ _ _)
            (callback_ne_ja _ _ _)
  · simp

/-! ### Mutual exclusion of 87.54B and 13.99JA (window path) -/

/-- Codes of the delivery push of the window path: the resolved delivery
code or a complication extra code. -/
theorem windowDeliveryPush_codes (db : DB) (primary : ShiftWindow)
    (deliverySlot : Option Slot) (deliveredTime : Option Int)
    (deliveryCode : String) (b : BillingI)
    (hb : b ∈ windowDeliveryPush db primary deliverySlot deliveredTime
      deliveryCode) :
    b.code = deliveryCode ∨
    b.code ∈ ["87.99A", "84.21", "87.89B", "85.69B", "87.6"] := by
  unfold windowDeliveryPush at hb
  revert hb
  dsimp only
  split
  · split
    · intro hb
      rw [List.mem_append] at hb
      rcases hb with hb | hb
      · rw [List.mem_singleton] at hb
        subst hb
        exact Or.inl rfl
      · revert hb
        split
        · intro hb
          rw [List.mem_map] at hb
          obtain ⟨x, hx, hbx⟩ := hb
          subst hbx
          exact Or.inr (deliveryExtras_codes _ _ _ _ x hx)
        · intro hb; cases hb
    · intro hb; cases hb
  · intro hb; cases hb

/-- Every line of the capped-and-cleaned stage shares its code with some
internal line. -/
theorem windowFilteredStart_mem (B1 : List BillingI) (b : Billing)
    (hb : b ∈ windowFilteredStart B1) : ∃ bi ∈ B1, b.code = bi.code := by
  unfold windowFilteredStart at hb
  dsimp only at hb
  rw [List.mem_append] at hb
  rcases hb with hb | hb
  · rw [List.mem_map] at hb
    obtain ⟨bi, hbi, hc⟩ := hb
    rw [List.mem_filter] at hbi
    subst hc
    exact ⟨bi, hbi.1, rfl⟩
  · rw [List.mem_map] at hb
    obtain ⟨bi, hbi, hc⟩ := hb
    subst hc
    have h1 : bi ∈ jsSortBy jaCapLe (B1.filter
        (fun x => decide (x.code = "13.99JA"))) :=
      (List.take_sublist _ _).subset hbi
    rw [mem_jsSortBy, List.mem_filter] at h1
    exact ⟨bi, h1.1, rfl⟩

/-- When no patient slot stores delivery code 87.54B, the resolved
delivery code differs from 87.54B. -/
theorem deliveryCodeOf_ne (patientSlots : List Slot)
    (admitted delivered : Int)
    (hclean : ∀ s ∈ patientSlots, s.delivery_code ≠ "87.54B") :
    deliveryCodeOf (deliverySlotOf (sortedScopedOf
      (scopedSlotsOf patientSlots admitted delivered))) ≠ "87.54B" := by
  unfold deliveryCodeOf deliverySlotOf
  split
  · rename_i s hs
    have hmem : s ∈ sortedScopedOf
        (scopedSlotsOf patientSlots admitted delivered) :=
      List.mem_of_find?_eq_some hs
    unfold sortedScopedOf at hmem
    rw [mem_jsSortBy] at hmem
    unfold scopedSlotsOf at hmem
    rw [List.mem_filter] at hmem
    have hcl := hclean s hmem.1
    unfold normalizeDeliveryCode
    split
    · exact hcl
    · split <;> decide
  · decide

/-- Mutual exclusion inside the non-OB window path: an 87.54B line in the
output forces the continuous-monitoring flag, which in turn forces the
filtered list (the only source of 13.99JA lines) to be JA-free. -/
theorem windowPathBillings_cm (db : DB) (patient : Patient)
    (activeShiftWindows : List ShiftWindow) (primary : ShiftWindow)
    (admitted delivered : Int) (scopedSlots : List Slot)
    (deliverySlot : Option Slot) (deliveredTime : Option Int)
    (deliveryCode : String)
    (triageBillings afterHoursBillings : List Billing)
    (callbackInfos : List CallbackInfo)
    (hdel : deliveryCode ≠ "87.54B")
    (htriB : ∀ b ∈ triageBillings, b.code ≠ "87.54B")
    (htriJ : ∀ b ∈ triageBillings, b.code ≠ "13.99JA")
    (hafterB : ∀ b ∈ afterHoursBillings, b.code ≠ "87.54B")
    (hafterJ : ∀ b ∈ afterHoursBillings, b.code ≠ "13.99JA")
    (hcbB : ∀ i ∈ callbackInfos, ∀ b ∈ i.billings, b.code ≠ "87.54B")
    (hcbJ : ∀ i ∈ callbackInfos, ∀ b ∈ i.billings, b.code ≠ "13.99JA") :
    ∀ b ∈ windowPathBillings db patient activeShiftWindows primary admitted
        delivered scopedSlots deliverySlot deliveredTime deliveryCode
        triageBillings afterHoursBillings callbackInfos,
      b.code = "87.54B" →
      ∀ b2 ∈ windowPathBillings db patient activeShiftWindows primary
          admitted delivered scopedSlots deliverySlot deliveredTime
          deliveryCode triageBillings afterHoursBillings callbackInfos,
        b2.code ≠ "13.99JA" := by
  intro b hb hcode b2 hb2 hcode2
  unfold windowPathBillings at hb hb2
  dsimp only at hb hb2
  rw [mem_jsSortBy] at hb hb2
  simp only [List.mem_append] at hb hb2
  have hres1B : ∀ x ∈ (List.foldl applyCallbackStep
      (windowFilteredStart (activeShiftWindows.flatMap
        (buildJaBillingsForWindow db admitted delivered scopedSlots
          deliveredTime (otherPatientsOf db patient.id)) ++
        windowDeliveryPush db primary deliverySlot deliveredTime
          deliveryCode), [])
      (jsSortBy (fun a b => decide (a.slotTime.getD 0 ≤ b.slotTime.getD 0))
        (callbackInfos.filter (fun i =>
          i.slotTime.isSome && decide (i.billings ≠ []))))).1,
      x.code ≠ "87.54B" := by
    intro x hx hcx
    have hx2 := (applyCallbacks_fst_sublist _ _).subset hx
    obtain ⟨bi, hbi, hceq⟩ := windowFilteredStart_mem _ x hx2
    rw [List.mem_append] at hbi
    rcases hbi with h | h
    · rw [List.mem_flatMap] at h
      obtain ⟨w2, _, hw2⟩ := h
      have hja := (buildJaBillingsForWindow_mem db admitted delivered
        scopedSlots deliveredTime (otherPatientsOf db patient.id) w2 bi
        hw2).1
      rw [hcx] at hceq
      rw [← hceq] at hja
      revert hja
      decide
    · rcases windowDeliveryPush_codes db primary deliverySlot deliveredTime
        deliveryCode bi h with h2 | h2
      · rw [hcx] at hceq
        rw [← hceq] at h2
        exact hdel h2.symm
      · rw [hcx] at hceq
        rw [← hceq] at h2
        revert h2
        decide
  have hsndJ : ∀ x ∈ (List.foldl applyCallbackStep
      (windowFilteredStart (activeShiftWindows.flatMap
        (buildJaBillingsForWindow db admitted delivered scopedSlots
          deliveredTime (otherPatientsOf db patient.id)) ++
        windowDeliveryPush db primary deliverySlot deliveredTime
          deliveryCode), [])
      (jsSortBy (fun a b => decide (a.slotTime.getD 0 ≤ b.slotTime.getD 0))
        (callbackInfos.filter (fun i =>
          i.slotTime.isSome && decide (i.billings ≠ []))))).2,
      x.code ≠ "13.99JA" ∧ x.code ≠ "87.54B" := by
    apply applyCallbacks_snd_codes
      (fun x => x.code ≠ "13.99JA" ∧ x.code ≠ "87.54B")
    · intro i hi x hx
      rw [mem_jsSortBy, List.mem_filter] at hi
      exact ⟨hcbJ i hi.1 x hx, hcbB i hi.1 x hx⟩
    · intro x hx
      cases hx
  have hb2res : b2 ∈ (List.foldl applyCallbackStep
      (windowFilteredStart (activeShiftWindows.flatMap
        (buildJaBillingsForWindow db admitted delivered scopedSlots
          deliveredTime (otherPatientsOf db patient.id)) ++
        windowDeliveryPush db primary deliverySlot deliveredTime
          deliveryCode), [])
      (jsSortBy (fun a b => decide (a.slotTime.getD 0 ≤ b.slotTime.getD 0))
        (callbackInfos.filter (fun i =>
          i.slotTime.isSome && decide (i.billings ≠ []))))).1 := by
    rcases hb2 with ((((h | h) | h) | h) | h) | h
    · exact h
    · exact absurd hcode2 (htriJ b2 h)
    · exfalso
      rcases buildStatusEventBillings_codes db patient.id _ b2 h with
        hx | hx | ⟨hx, _⟩ <;> rw [hcode2] at hx <;> revert hx <;> decide
    · exact absurd hcode2 (hsndJ b2 h).1
    · exact absurd hcode2 (hafterJ b2 h)
    · exfalso
      have hx := buildSupportiveCareBillings_code db patient b2 h
      rw [hcode2] at hx
      revert hx
      decide
  have hbst : b ∈ buildStatusEventBillings db patient.id
      (!(List.foldl applyCallbackStep
        (windowFilteredStart (activeShiftWindows.flatMap
          (buildJaBillingsForWindow db admitted delivered scopedSlots
            deliveredTime (otherPatientsOf db patient.id)) ++
          windowDeliveryPush db primary deliverySlot deliveredTime
            deliveryCode), [])
        (jsSortBy (fun a b =>
          decide (a.slotTime.getD 0 ≤ b.slotTime.getD 0))
          (callbackInfos.filter (fun i =>
            i.slotTime.isSome && decide (i.billings ≠ []))))).1.any
        (fun x => decide (x.code = "13.99JA"))) := by
    rcases hb with ((((h | h) | h) | h) | h) | h
    · exact absurd hcode (hres1B b h)
    · exact absurd hcode (htriB b h)
    · exact h
    · exact absurd hcode (hsndJ b h).2
    · exact absurd hcode (hafterB b h)
    · exfalso
      have hx := buildSupportiveCareBillings_code db patient b h
      rw [hcode] at hx
      revert hx
      decide
  rcases buildStatusEventBillings_codes db patient.id _ b hbst with
    hx | hx | ⟨_, hallow⟩
  · rw [hcode] at hx; revert hx; decide
  · rw [hcode] at hx; revert hx; decide
  · rw [Bool.not_eq_true'] at hallow
    rw [List.any_eq_false] at hallow
    exact hallow b2 hb2res (by simp [hcode2])

/-- The triage builder never emits 87.54B. -/
theorem triage_ne_b (db : DB) (ts : List TSlot) (allow : Bool) :
    ∀ b ∈ buildTriageBillings db ts allow, b.code ≠ "87.54B" := by
  intro b hb hc
  have := buildTriageBillings_codes db ts allow b hb
  rw [hc] at this
  revert this
  decide

/-- The after-hours premium builder never emits 87.54B. -/
theorem afterHours_ne_b (db : DB) (p : Patient) (a d : Int)
    (ws : List ShiftWindow) :
    ∀ b ∈ buildAfterHoursPremiumBillings db p a d ws,
      b.code ≠ "87.54B" := by
  intro b hb hc
  have := buildAfterHoursPremiumBillings_code db p a d ws b hb
  rw [hc] at this
  revert this
  decide

/-- Callback infos never carry 87.54B lines. -/
theorem callback_ne_b (db : DB) (p : Patient) (ws : List ShiftWindow) :
    ∀ i ∈ buildCallbackBillingInfo db p ws, ∀ b ∈ i.billings,
      b.code ≠ "87.54B" := by
  intro i hi b hb hc
  have := buildCallbackBillingInfo_codes db p ws i hi b hb
  rw [hc] at this
  revert this
  decide

/-- C4: in the non-OB/VBAC, window-present path (and with no slot storing
the literal delivery code 87.54B), the result of buildOptimizedBillings
contains an 87.54B (Continuous Monitoring) entry only if it contains no
13.99JA entry: a surviving 13.99JA line disables all Continuous
Monitoring billing. -/
theorem claim_C4 (db : DB) (patient : Patient) (patientSlots : List Slot)
    (windows : List ShiftWindow) (primary : ShiftWindow)
    (admitted delivered : Int)
    (ha : patient.care_admitted_at = some admitted)
    (hd : patient.care_delivered_at = some delivered)
    (hlt : admitted < delivered)
    (hp : windows.head? = some primary)
    (hnoB : deliveryCodeOf (deliverySlotOf (sortedScopedOf
      (scopedSlotsOf patientSlots admitted delivered))) ≠ "87.98B")
    (hnoC : deliveryCodeOf (deliverySlotOf (sortedScopedOf
      (scopedSlotsOf patientSlots admitted delivered))) ≠ "87.98C")
    (hclean : ∀ s ∈ patientSlots, s.delivery_code ≠ "87.54B") :
    ∀ b ∈ buildOptimizedBillings db patient patientSlots windows,
      b.code = "87.54B" →
      ∀ b2 ∈ buildOptimizedBillings db patient patientSlots windows,
        b2.code ≠ "13.99JA" := by
  have hdel := deliveryCodeOf_ne patientSlots admitted delivered hclean
  unfold buildOptimizedBillings
  rw [ha, hd]
  dsimp only
  rw [if_neg (by omega)]
  rw [if_neg (by
    simp only [Bool.or_eq_true, Bool.and_eq_true, decide_eq_true_eq,
      not_or, not_and]
    exact ⟨fun _ => hnoB, fun _ => hnoC⟩)]
  rw [hp]
  exact windowPathBillings_cm db patient windows primary admitted delivered
    _ _ _ _ _ _ _ hdel (triage_ne_b _ _ _) (triage_ne_ja _ _ _)
    (afterHours_ne_b _ _ _ _ _) (afterHours_ne_ja _ _ _ _ _)
    (callback_ne_b _ _ _) (callback_ne_ja _ _ _)

/-- Witness for C4 at the callback scenario database. -/
theorem claim_C4_witness :
    (patientC1.care_admitted_at = some 1920 ∧
     patientC1.care_delivered_at = some 2100 ∧
     (1920 : Int) < 2100 ∧
     [windowC1].head? = some windowC1 ∧
     deliveryCodeOf (deliverySlotOf (sortedScopedOf
       (scopedSlotsOf [cbSlotC1] 1920 2100))) ≠ "87.98B" ∧
     deliveryCodeOf (deliverySlotOf (sortedScopedOf
       (scopedSlotsOf [cbSlotC1] 1920 2100))) ≠ "87.98C" ∧
     (∀ s ∈ [cbSlotC1], s.delivery_code ≠ "87.54B")) ∧
    (∀ b ∈ buildOptimizedBillings dbC1 patientC1 [cbSlotC1] [windowC1],
      b.code = "87.54B" →
      ∀ b2 ∈ buildOptimizedBillings dbC1 patientC1 [cbSlotC1] [windowC1],
        b2.code ≠ "13.99JA") :=
  ⟨⟨rfl, rfl, by norm_num, rfl, by decide, by decide, by decide⟩,
   claim_C4 dbC1 patientC1 [cbSlotC1] [windowC1] windowC1 1920 2100 rfl rfl
     (by norm_num) rfl (by decide) (by decide) (by decide)⟩

/-! ### Distinctness of 13.99JA (doctor, time) pairs -/

/-- Fold preservation of a predicate, with membership information about
the folded elements. -/
theorem foldl_preserve_mem {α σ : Type} (step : σ → α → σ) (P : σ → Prop) :
    ∀ (l : List α) (s : σ),
      (∀ a ∈ l, ∀ s2, P s2 → P (step s2 a)) → P s → P (l.foldl step s) := by
  intro l
  induction l with
  | nil => intro s _ h; exact h
  | cons a rest ih =>
    intro s hstep h
    rw [List.foldl_cons]
    exact ih _ (fun x hx s2 hs2 => hstep x (List.mem_cons_of_mem a hx) s2
      hs2) (hstep a (List.mem_cons_self a rest) s h)

/-- A property holding on both branches holds on the if-then-else. -/
theorem ite_prop {α : Sort u} {c : Prop} [Decidable c] (P : α → Prop)
    {x y : α} (h1 : P x) (h2 : P y) : P (if c then x else y) := by
  by_cases hc : c
  · rw [if_pos hc]
    exact h1
  · rw [if_neg hc]
    exact h2

/-- Elements of an updated association list are the update or old
elements. -/
theorem alistSet_mem {κ β : Type} [DecidableEq κ] (k : κ) (v : β) :
    ∀ (l : List (κ × β)) (kv : κ × β), kv ∈ alistSet k v l →
      kv = (k, v) ∨ kv ∈ l := by
  intro l
  induction l with
  | nil =>
    intro kv h
    rw [alistSet, List.mem_singleton] at h
    exact Or.inl h
  | cons p rest ih =>
    intro kv h
    rw [alistSet] at h
    revert h
    split
    · intro h
      rw [List.mem_cons] at h
      rcases h with h | h
      · exact Or.inl h
      · exact Or.inr (List.mem_cons_of_mem p h)
    · intro h
      rw [List.mem_cons] at h
      rcases h with h | h
      · subst h
        exact Or.inr (List.mem_cons_self p rest)
      · rcases ih kv h with h2 | h2
        · exact Or.inl h2
        · exact Or.inr (List.mem_cons_of_mem p h2)

/-- Keys of an updated association list. -/
theorem alistSet_fst_mem {κ β : Type} [DecidableEq κ] (k : κ) (v : β)
    (l : List (κ × β)) (x : κ)
    (h : x ∈ (alistSet k v l).map Prod.fst) :
    x = k ∨ x ∈ l.map Prod.fst := by
  rw [List.mem_map] at h
  obtain ⟨kv, hkv, hx⟩ := h
  rcases alistSet_mem k v l kv hkv with h2 | h2
  · subst h2
    exact Or.inl hx.symm
  · exact Or.inr (hx ▸ List.mem_map_of_mem Prod.fst h2)

/-- alistSet keeps keys pairwise distinct. -/
theorem alistSet_nodup {κ β : Type} [DecidableEq κ] (k : κ) (v : β) :
    ∀ (l : List (κ × β)), (l.map Prod.fst).Nodup →
      ((alistSet k v l).map Prod.fst).Nodup := by
  intro l
  induction l with
  | nil => intro _; simp [alistSet]
  | cons p rest ih =>
    intro h
    rw [List.map_cons, List.nodup_cons] at h
    rw [alistSet]
    split
    · rename_i heq
      rw [List.map_cons, List.nodup_cons]
      refine ⟨?_, h.2⟩
      rw [← heq]
      exact h.1
    · rename_i hne
      rw [List.map_cons, List.nodup_cons]
      refine ⟨?_, ih h.2⟩
      intro hx
      rcases alistSet_fst_mem k v rest p.1 hx with h2 | h2
      · exact hne h2
      · exact h.1 h2

theorem selInv_nil (cutoff : Int) : selInv cutoff [] :=
  ⟨List.nodup_nil, by intro kv h; cases h⟩

theorem selInv_alistSet (cutoff : Int) (sel : List (Int × SlotC)) (k : Int)
    (v : SlotC) (hsel : selInv cutoff sel) (hk : v.slotTime = k)
    (hc : v.slotTime ≠ cutoff) : selInv cutoff (alistSet k v sel) := by
  refine ⟨alistSet_nodup k v sel hsel.1, ?_⟩
  intro kv hkv
  rcases alistSet_mem k v sel kv hkv with h | h
  · subst h
    exact ⟨hk, hc⟩
  · exact hsel.2 kv h

/-- Lines finalized from a selection satisfying the invariant have
pairwise distinct (doctor, time) pairs and avoid the cutoff time. -/
theorem jaFinalize_distinct (encS attT : List Int) (did : Nat)
    (cutoff : Int) (sel : List (Int × SlotC)) (hsel : selInv cutoff sel) :
    (jaFinalize encS attT did sel).Pairwise
      (fun a b => ¬(a.doctor = b.doctor ∧ a.time = b.time)) ∧
    ∀ b ∈ jaFinalize encS attT did sel, b.time ≠ cutoff := by
  have hvals : (sel.map (fun kv => kv.2)).Pairwise
      (fun s t => s.slotTime ≠ t.slotTime) := by
    rw [List.pairwise_map]
    have hkeys : sel.Pairwise (fun kv kv2 => kv.1 ≠ kv2.1) :=
      List.pairwise_map.mp hsel.1
    refine hkeys.imp_of_mem ?_
    intro kv kv2 h1 h2 hne heq
    apply hne
    rw [← (hsel.2 kv h1).1, ← (hsel.2 kv2 h2).1, heq]
  constructor
  · unfold jaFinalize
    rw [List.pairwise_map]
    have hsorted : (jsSortBy (fun a b => decide (a.slotTime ≤ b.slotTime))
        (sel.map (fun kv => kv.2))).Pairwise
        (fun s t => s.slotTime ≠ t.slotTime) := by
      refine ((jsSortBy_perm _ _).pairwise_iff ?_).mpr hvals
      intro a b h
      exact (h ·.symm)
    refine hsorted.imp ?_
    intro s t h hcontra
    exact h hcontra.2
  · intro b hb
    unfold jaFinalize at hb
    rw [List.mem_map] at hb
    obtain ⟨s, hs, hbs⟩ := hb
    rw [mem_jsSortBy, List.mem_map] at hs
    obtain ⟨kv, hkv, hskv⟩ := hs
    subst hbs
    subst hskv
    exact (hsel.2 kv hkv).2

/-- Candidate slots of the JA grid never sit at the delivery cutoff. -/
theorem slots_filterMap_ne_cutoff (cutoff cStart : Int) (grid : List Int)
    (s : SlotC)
    (hs : s ∈ grid.filterMap (fun st =>
      if st = cutoff then none
      else if cStart ≤ st ∧ st < cutoff then none
      else some (⟨st, (timeModifier st).modifier,
        (timeModifier st).weight, 0⟩ : SlotC))) :
    s.slotTime ≠ cutoff := by
  rw [List.mem_filterMap] at hs
  obtain ⟨st, _, hst⟩ := hs
  revert hst
  split
  · intro h; cases h
  · split
    · intro h; cases h
    · rename_i h1 h2
      intro h
      rw [Option.some_inj] at h
      subst h
      exact h1

/-- Each window's JA lines have pairwise distinct (doctor, time) pairs
and never sit at the delivery cutoff time. -/
theorem buildJaBillingsForWindow_distinct (db : DB)
    (admitted delivered : Int) (scopedSlots : List Slot)
    (deliveredTime : Option Int) (otherPatients : List OtherPatient)
    (w : ShiftWindow) :
    (buildJaBillingsForWindow db admitted delivered scopedSlots
      deliveredTime otherPatients w).Pairwise
      (fun a b => ¬(a.doctor = b.doctor ∧ a.time = b.time)) ∧
    ∀ b ∈ buildJaBillingsForWindow db admitted delivered scopedSlots
      deliveredTime otherPatients w,
      b.time ≠ deliveredTime.getD delivered := by
  unfold buildJaBillingsForWindow
  split
  · exact ⟨List.Pairwise.nil, by intro b hb; cases hb⟩
  · dsimp only
    apply ite_prop (fun l : List BillingI => l.Pairwise
      (fun a b => ¬(a.doctor = b.doctor ∧ a.time = b.time)) ∧
      ∀ b ∈ l, b.time ≠ deliveredTime.getD delivered)
    · exact ⟨List.Pairwise.nil, by intro b hb; cases hb⟩
    · apply ite_prop (fun l : List BillingI => l.Pairwise
        (fun a b => ¬(a.doctor = b.doctor ∧ a.time = b.time)) ∧
        ∀ b ∈ l, b.time ≠ deliveredTime.getD delivered)
      · exact ⟨List.Pairwise.nil, by intro b hb; cases hb⟩
      · apply ite_prop (fun l : List BillingI => l.Pairwise
          (fun a b => ¬(a.doctor = b.doctor ∧ a.time = b.time)) ∧
          ∀ b ∈ l, b.time ≠ deliveredTime.getD delivered)
        · refine jaFinalize_distinct _ _ _ _ _ ?_
          refine foldl_preserve_mem _ _ _ _ ?_ ?_
          · intro kv hkv s2 hs2
            apply ite_prop (selInv _)
            · exact hs2
            · apply ite_prop (selInv _)
              · exact hs2
              · rw [mem_jsSortBy, List.mem_filterMap] at hkv
                obtain ⟨t, _, hft⟩ := hkv
                revert hft
                split
                · rename_i s hfind
                  split
                  · intro h; cases h
                  · intro h
                    rw [Option.some_inj] at h
                    subst h
                    refine selInv_alistSet _ _ _ _ hs2 ?_ ?_
                    · have hp := List.find?_some hfind
                      exact of_decide_eq_true hp
                    · exact slots_filterMap_ne_cutoff _ _ _ _
                        (List.mem_of_find?_eq_some hfind)
                · intro h; cases h
          · refine foldl_preserve_mem _ _ _ _ ?_ (selInv_nil _)
            intro kv hkv s2 hs2
            have hkv2 := (List.take_sublist _ _).subset hkv
            rw [mem_jsSortBy, List.mem_filterMap] at hkv2
            obtain ⟨k, _, hgk⟩ := hkv2
            rw [Option.map_eq_some'] at hgk
            obtain ⟨s, hfind, hkvs⟩ := hgk
            subst hkvs
            refine selInv_alistSet _ _ _ _ hs2 ?_ ?_
            · have hp := List.find?_some hfind
              exact of_decide_eq_true hp
            · exact slots_filterMap_ne_cutoff _ _ _ _
                (List.mem_of_find?_eq_some hfind)
        · refine jaFinalize_distinct _ _ _ _ _ ?_
          refine foldl_preserve_mem _ _ _ _ ?_ ?_
          · intro s hs s2 hs2
            refine selInv_alistSet _ _ _ _ hs2 rfl ?_
            have hs4 := (List.take_sublist _ _).subset hs
            rw [mem_jsSortBy, List.mem_map] at hs4
            obtain ⟨s0, hs0, hss0⟩ := hs4
            rw [List.mem_filter] at hs0
            subst hss0
            have h5 := slots_filterMap_ne_cutoff _ _ _ s0 hs0.1
            exact h5
          · refine foldl_preserve_mem _ _ _ _ ?_ ?_
            · intro kv hkv s2 hs2
              apply ite_prop (selInv _)
              · exact hs2
              · apply ite_prop (selInv _)
                · exact hs2
                · rw [mem_jsSortBy, List.mem_filterMap] at hkv
                  obtain ⟨t, _, hft⟩ := hkv
                  revert hft
                  split
                  · rename_i s hfind
                    split
                    · intro h; cases h
                    · intro h
                      rw [Option.some_inj] at h
                      subst h
                      refine selInv_alistSet _ _ _ _ hs2 ?_ ?_
                      · have hp := List.find?_some hfind
                        exact of_decide_eq_true hp
                      · exact slots_filterMap_ne_cutoff _ _ _ _
                          (List.mem_of_find?_eq_some hfind)
                  · intro h; cases h
            · refine foldl_preserve_mem _ _ _ _ ?_ (selInv_nil _)
              intro kv hkv s2 hs2
              have hkv2 := (List.take_sublist _ _).subset hkv
              rw [mem_jsSortBy, List.mem_filterMap] at hkv2
              obtain ⟨k, _, hgk⟩ := hkv2
              rw [Option.map_eq_some'] at hgk
              obtain ⟨s, hfind, hkvs⟩ := hgk
              subst hkvs
              refine selInv_alistSet _ _ _ _ hs2 ?_ ?_
              · have hp := List.find?_some hfind
                exact of_decide_eq_true hp
              · exact slots_filterMap_ne_cutoff _ _ _ _
                  (List.mem_of_find?_eq_some hfind)

/-- A list of length at most one is vacuously pairwise. -/
theorem pairwise_of_length_le_one {α : Type} {R : α → α → Prop}
    {l : List α} (h : l.length ≤ 1) : l.Pairwise R := by
  match l with
  | [] => exact List.Pairwise.nil
  | [a] =>
    exact List.Pairwise.cons (fun b hb => absurd hb (List.not_mem_nil b))
      List.Pairwise.nil
  | a :: b :: t =>
    rw [List.length_cons, List.length_cons] at h
    omega

/-- The (doctor, time)-distinctness relation on output lines is
symmetric. -/
theorem billingR_symm :
    Symmetric (fun a b : Billing =>
      ¬(a.doctor = b.doctor ∧ a.time = b.time)) := by
  intro a b h hc
  exact h ⟨hc.1.symm, hc.2.symm⟩

/-- A 13.99JA count of zero empties the 13.99JA filter. -/
theorem filter_ja_eq_nil {l : List Billing}
    (h : l.countP (fun b => decide (b.code = "13.99JA")) = 0) :
    l.filter (fun b => decide (b.code = "13.99JA")) = [] := by
  rw [List.countP_eq_length_filter] at h
  rw [← List.length_eq_zero]
  exact h

/-- A 13.99JA count of zero makes the 13.99JA filter vacuously
pairwise. -/
theorem pairwise_filter_ja_zero {l : List Billing}
    (R : Billing → Billing → Prop)
    (h : l.countP (fun b => decide (b.code = "13.99JA")) = 0) :
    (l.filter (fun b => decide (b.code = "13.99JA"))).Pairwise R := by
  rw [filter_ja_eq_nil h]
  exact List.Pairwise.nil

/-- Every complication extra is billed at the delivery time. -/
theorem deliveryExtras_time (ds : Slot) (t : Int) (doctor : Option Nat)
    (m : String) (e : Billing) (he : e ∈ deliveryExtras ds t doctor m) :
    e.time = t := by
  unfold deliveryExtras at he
  simp only [List.mem_append] at he
  rcases he with ((((h | h) | h) | h) | h) <;> revert h <;> split <;>
    intro h <;> simp_all

/-- Every line of the delivery push is billed at the parsed delivered
time. -/
theorem windowDeliveryPush_time (db : DB) (primary : ShiftWindow)
    (deliverySlot : Option Slot) (deliveredTime : Option Int)
    (deliveryCode : String) (b : BillingI)
    (hb : b ∈ windowDeliveryPush db primary deliverySlot deliveredTime
      deliveryCode) :
    deliveredTime = some b.time := by
  unfold windowDeliveryPush at hb
  revert hb
  cases deliveredTime with
  | none => intro hb; cases hb
  | some dt =>
    dsimp only
    split
    · intro hb
      rw [List.mem_append] at hb
      rcases hb with hb | hb
      · rw [List.mem_singleton] at hb
        subst hb
        rfl
      · revert hb
        split
        · rename_i ds
          intro hb
          rw [List.mem_map] at hb
          obtain ⟨e, he, hbe⟩ := hb
          subst hbe
          have ht := deliveryExtras_time ds dt _ _ e he
          show some dt = some e.time
          rw [ht]
        · intro hb; cases hb
    · intro hb; cases hb

/-- The embedded complication extras never carry the 13.99JA code. -/
theorem deliveryExtras_toI_filterJA (ds : Slot) (t : Int)
    (doctor : Option Nat) (m : String) :
    ((deliveryExtras ds t doctor m).map Billing.toI).filter
      (fun b => decide (b.code = "13.99JA")) = [] := by
  rw [List.filter_eq_nil_iff]
  intro b hb
  rw [List.mem_map] at hb
  obtain ⟨e, he, hbe⟩ := hb
  subst hbe
  have hc := deliveryExtras_codes ds t doctor m e he
  simp only [List.mem_cons, List.not_mem_nil, or_false] at hc
  simp only [decide_eq_true_eq]
  show e.code ≠ "13.99JA"
  rcases hc with h | h | h | h | h <;> rw [h] <;> decide

/-- The delivery push contributes at most one 13.99JA line. -/
theorem windowDeliveryPush_filterJA_len (db : DB) (primary : ShiftWindow)
    (deliverySlot : Option Slot) (deliveredTime : Option Int)
    (deliveryCode : String) :
    ((windowDeliveryPush db primary deliverySlot deliveredTime
      deliveryCode).filter
      (fun b => decide (b.code = "13.99JA"))).length ≤ 1 := by
  unfold windowDeliveryPush
  cases deliveredTime with
  | none => simp
  | some dt =>
    dsimp only
    split
    · cases deliverySlot with
      | none =>
        refine le_trans (List.length_filter_le _ _) ?_
        simp
      | some ds =>
        dsimp only
        rw [List.filter_append, List.length_append,
          deliveryExtras_toI_filterJA, List.length_nil, Nat.add_zero]
        refine le_trans (List.length_filter_le _ _) ?_
        simp
    · simp

/-- Pairwise distinctness of a filtered flatMap from per-block and
cross-block distinctness. -/
theorem filter_flatMap_pairwise {α β : Type} (p : β → Bool)
    (R : β → β → Prop) (f : α → List β) :
    ∀ l : List α,
      (∀ a ∈ l, ((f a).filter p).Pairwise R) →
      l.Pairwise (fun a b => ∀ u ∈ (f a).filter p, ∀ v ∈ (f b).filter p,
        R u v) →
      ((l.flatMap f).filter p).Pairwise R := by
  intro l
  induction l with
  | nil => intro _ _; simp
  | cons a rest ih =>
    intro h1 h2
    rw [List.flatMap_cons, List.filter_append, List.pairwise_append]
    rw [List.pairwise_cons] at h2
    refine ⟨h1 a (List.mem_cons_self a rest),
      ih (fun x hx => h1 x (List.mem_cons_of_mem a hx)) h2.2, ?_⟩
    intro u hu v hv
    rw [List.mem_filter, List.mem_flatMap] at hv
    obtain ⟨⟨c, hc, hvc⟩, hvp⟩ := hv
    exact h2.1 c hc u hu v (List.mem_filter.mpr ⟨hvc, hvp⟩)

/-- With pairwise-distinct window doctors, the merged internal JA pool
(per-window candidates plus the delivery push) has pairwise distinct
(doctor, time) pairs among its 13.99JA lines. -/
theorem billings1_distinctJA (db : DB) (admitted delivered : Int)
    (scopedSlots : List Slot) (deliveredTime : Option Int)
    (otherPatients : List OtherPatient)
    (activeShiftWindows : List ShiftWindow) (primary : ShiftWindow)
    (deliverySlot : Option Slot) (deliveryCode : String)
    (hwin : activeShiftWindows.Pairwise
      (fun a b => a.doctor_id ≠ b.doctor_id)) :
    ((activeShiftWindows.flatMap (buildJaBillingsForWindow db admitted
        delivered scopedSlots deliveredTime otherPatients) ++
      windowDeliveryPush db primary deliverySlot deliveredTime
        deliveryCode).filter
      (fun b => decide (b.code = "13.99JA"))).Pairwise
      (fun a b : BillingI =>
        ¬(a.doctor = b.doctor ∧ a.time = b.time)) := by
  rw [List.filter_append, List.pairwise_append]
  refine ⟨?_, ?_, ?_⟩
  · refine filter_flatMap_pairwise _ _ _ _ ?_ ?_
    · intro w _
      exact List.Pairwise.sublist (List.filter_sublist _)
        (buildJaBillingsForWindow_distinct db admitted delivered
          scopedSlots deliveredTime otherPatients w).1
    · refine hwin.imp ?_
      intro a b hne u hu v hv hc
      rw [List.mem_filter] at hu hv
      have hu2 := (buildJaBillingsForWindow_mem db admitted delivered
        scopedSlots deliveredTime otherPatients a u hu.1).2
      have hv2 := (buildJaBillingsForWindow_mem db admitted delivered
        scopedSlots deliveredTime otherPatients b v hv.1).2
      apply hne
      have hdd := hc.1
      rw [hu2, hv2] at hdd
      exact Option.some_inj.mp hdd
  · exact pairwise_of_length_le_one (windowDeliveryPush_filterJA_len db
      primary deliverySlot deliveredTime deliveryCode)
  · intro u hu v hv hc
    rw [List.mem_filter, List.mem_flatMap] at hu
    obtain ⟨⟨w, hw, huw⟩, _⟩ := hu
    have hu3 := (buildJaBillingsForWindow_distinct db admitted delivered
      scopedSlots deliveredTime otherPatients w).2 u huw
    rw [List.mem_filter] at hv
    have hv3 := windowDeliveryPush_time db primary deliverySlot
      deliveredTime deliveryCode v hv.1
    apply hu3
    rw [hc.2, hv3]
    rfl

/-- The capped-and-cleaned stage preserves pairwise (doctor, time)
distinctness of the incoming 13.99JA lines. -/
theorem windowFilteredStart_distinctJA (B1 : List BillingI)
    (hB1 : (B1.filter (fun b => decide (b.code = "13.99JA"))).Pairwise
      (fun a b : BillingI =>
        ¬(a.doctor = b.doctor ∧ a.time = b.time))) :
    ((windowFilteredStart B1).filter
      (fun b => decide (b.code = "13.99JA"))).Pairwise
      (fun a b : Billing =>
        ¬(a.doctor = b.doctor ∧ a.time = b.time)) := by
  unfold windowFilteredStart
  dsimp only
  rw [List.filter_append]
  have h1 : (((B1.filter (fun b => decide (b.code ≠ "13.99JA"))).map
      BillingI.clean).filter
      (fun b => decide (b.code = "13.99JA"))) = [] := by
    rw [List.filter_eq_nil_iff]
    intro b hb
    rw [List.mem_map] at hb
    obtain ⟨bi, hbi, hc⟩ := hb
    rw [List.mem_filter] at hbi
    subst hc
    simpa using hbi.2
  have h2 : ((((jsSortBy jaCapLe (B1.filter (fun b =>
      decide (b.code = "13.99JA")))).take 12).map BillingI.clean).filter
      (fun b => decide (b.code = "13.99JA"))) =
      ((jsSortBy jaCapLe (B1.filter (fun b =>
        decide (b.code = "13.99JA")))).take 12).map BillingI.clean := by
    rw [List.filter_eq_self]
    intro b hb
    rw [List.mem_map] at hb
    obtain ⟨bi, hbi, hc⟩ := hb
    have h3 := (List.take_sublist _ _).subset hbi
    rw [mem_jsSortBy, List.mem_filter] at h3
    subst hc
    exact h3.2
  rw [h1, h2, List.nil_append, List.pairwise_map]
  refine List.Pairwise.sublist (List.take_sublist _ _) ?_
  refine ((jsSortBy_perm _ _).pairwise_iff ?_).mpr ?_
  · intro a b h hc
    exact h ⟨hc.1.symm, hc.2.symm⟩
  · exact hB1

set_option maxHeartbeats 1000000 in
/-- With pairwise-distinct window doctors, the non-OB window path of the
engine emits 13.99JA lines with pairwise distinct (doctor, time) pairs. -/
theorem windowPathBillings_distinctJA (db : DB) (patient : Patient)
    (activeShiftWindows : List ShiftWindow) (primary : ShiftWindow)
    (admitted delivered : Int) (scopedSlots : List Slot)
    (deliverySlot : Option Slot) (deliveredTime : Option Int)
    (deliveryCode : String)
    (triageBillings afterHoursBillings : List Billing)
    (callbackInfos : List CallbackInfo)
    (hwin : activeShiftWindows.Pairwise
      (fun a b => a.doctor_id ≠ b.doctor_id))
    (htri : ∀ b ∈ triageBillings, b.code ≠ "13.99JA")
    (hafter : ∀ b ∈ afterHoursBillings, b.code ≠ "13.99JA")
    (hcb : ∀ i ∈ callbackInfos, ∀ b ∈ i.billings, b.code ≠ "13.99JA") :
    ((windowPathBillings db patient activeShiftWindows primary admitted
      delivered scopedSlots deliverySlot deliveredTime deliveryCode
      triageBillings afterHoursBillings callbackInfos).filter
      (fun b => decide (b.code = "13.99JA"))).Pairwise
      (fun a b => ¬(a.doctor = b.doctor ∧ a.time = b.time)) := by
  unfold windowPathBillings
  dsimp only
  refine (((jsSortBy_perm timeLeB _).filter _).pairwise_iff
    (fun hxy => billingR_symm hxy)).mpr ?_
  simp only [List.filter_append]
  rw [filter_ja_eq_nil (countJA_of_forall htri),
    filter_ja_eq_nil (countJA_status db patient.id _),
    filter_ja_eq_nil (countJA_fold_snd callbackInfos _ hcb),
    filter_ja_eq_nil (countJA_of_forall hafter),
    filter_ja_eq_nil (countJA_supportive db patient)]
  simp only [List.append_nil]
  refine List.Pairwise.sublist
    (List.Sublist.filter _ (applyCallbacks_fst_sublist _ _)) ?_
  exact windowFilteredStart_distinctJA _ (billings1_distinctJA db admitted
    delivered scopedSlots deliveredTime (otherPatientsOf db patient.id)
    activeShiftWindows primary deliverySlot deliveryCode hwin)

/-- C8 counterexample: two identical active shift windows for the same
doctor (doctor 1, 00:00-01:00 on the epoch Sunday, patient admitted at
minute 0 and delivered at minute 100 with no shift slots) make
buildOptimizedBillings emit two 13.99JA entries with the same (doctor,
time) pair (some 1, 0), refuting the claim. -/
theorem claim_C8_counterexample :
    ((buildOptimizedBillings dbDoctors1 patientC8 []
      [⟨1, 0, 60⟩, ⟨1, 0, 60⟩]).filter
      (fun b => b.code = "13.99JA" ∧ b.doctor = some 1 ∧
        b.time = 0)).length = 2 := by
  decide

/-- C8 (amended): when the active shift windows carry pairwise distinct
doctor ids (in particular when at most one window is active), no two
13.99JA entries of buildOptimizedBillings share a (doctor, time) pair:
each window's scheduler keys its selection map by slot time and skips the
delivery-cutoff time, windows with distinct doctors stamp distinct
doctors, and the delivery push adds at most one 13.99JA line, at the
cutoff time itself.  Overlapping windows for the same doctor break the
property (see the counterexample). -/
theorem claim_C8 (db : DB) (patient : Patient) (patientSlots : List Slot)
    (windows : List ShiftWindow)
    (hw : windows.Pairwise (fun a b => a.doctor_id ≠ b.doctor_id)) :
    ((buildOptimizedBillings db patient patientSlots windows).filter
      (fun b => b.code = "13.99JA")).Pairwise
      (fun a b => ¬(a.doctor = b.doctor ∧ a.time = b.time)) := by
  unfold buildOptimizedBillings
  split
  · rename_i admitted delivered
    split
    · simp
    · dsimp only
      split
      · rename_i hob
        simp only [Bool.or_eq_true, Bool.and_eq_true, decide_eq_true_eq]
          at hob
        refine pairwise_filter_ja_zero _ ?_
        refine obPathBillings_countJA _ _ _ _ _ _ _ _ _ _ ?_
          (triage_ne_ja _ _ _) (afterHours_ne_ja _ _ _ _ _)
          (callback_ne_ja _ _ _)
        rcases hob with ⟨_, hdc⟩ | ⟨_, hdc⟩
        · exact Or.inl hdc
        · exact Or.inr hdc
      · split
        · refine pairwise_filter_ja_zero _ ?_
          rw [countP_jsSortBy]
          simp only [List.countP_append]
          rw [countJA_of_forall (triage_ne_ja _ _ _), countJA_status,
            countJA_of_forall (afterHours_ne_ja _ _ _ _ _),
            countJA_supportive]
        · exact windowPathBillings_distinctJA _ _ _ _ _ _ _ _ _ _ _ _ _
            hw (triage_ne_ja _ _ _) (afterHours_ne_ja _ _ _ _ _)
            (callback_ne_ja _ _ _)
  · simp

/-- C8 witness: the amended theorem applied at a single active window
(doctor 1), where the pairwise-distinct-doctor hypothesis holds
vacuously. -/
theorem claim_C8_witness :
    ([(⟨1, 0, 60⟩ : ShiftWindow)].Pairwise
      (fun a b => a.doctor_id ≠ b.doctor_id)) ∧
    ((buildOptimizedBillings dbDoctors1 patientC8 []
      [⟨1, 0, 60⟩]).filter (fun b => b.code = "13.99JA")).Pairwise
      (fun a b => ¬(a.doctor = b.doctor ∧ a.time = b.time)) :=
  ⟨by decide, claim_C8 dbDoctors1 patientC8 [] [⟨1, 0, 60⟩] (by decide)⟩

/-- Candidate slots of the JA grid sit on the generated quarter-hour
grid. -/
theorem slots_filterMap_mem_grid (cutoff cStart : Int) (grid : List Int)
    (s : SlotC)
    (hs : s ∈ grid.filterMap (fun st =>
      if st = cutoff then none
      else if cStart ≤ st ∧ st < cutoff then none
      else some (⟨st, (timeModifier st).modifier,
        (timeModifier st).weight, 0⟩ : SlotC))) :
    s.slotTime ∈ grid := by
  rw [List.mem_filterMap] at hs
  obtain ⟨st, hst0, hst⟩ := hs
  revert hst
  split
  · intro h; cases h
  · split
    · intro h; cases h
    · intro h
      rw [Option.some_inj] at h
      subst h
      exact hst0

theorem ghostInv_nil (enc att : List Int) (db : DB) (did : Nat)
    (ws we : Int) (grid : List Int) :
    ghostInv enc att db did ws we grid [] := by
  intro kv h
  cases h

theorem ghostInv_alistSet (enc att : List Int) (db : DB) (did : Nat)
    (ws we : Int) (grid : List Int) (sel : List (Int × SlotC)) (k : Int)
    (v : SlotC) (hsel : ghostInv enc att db did ws we grid sel)
    (hg : v.slotTime ∈ grid)
    (hd : enc.contains v.slotTime = true ∨
      att.contains v.slotTime = true ∨
      occupiedAt db did ws we v.slotTime = false) :
    ghostInv enc att db did ws we grid (alistSet k v sel) := by
  intro kv hkv
  rcases alistSet_mem k v sel kv hkv with h | h
  · subst h
    exact ⟨hg, hd⟩
  · exact hsel kv h

/-- A finalized line of priority 0 comes from an unoccupied grid slot. -/
theorem jaFinalize_ghost (enc att : List Int) (did : Nat) (db : DB)
    (did2 : Nat) (ws we : Int) (grid : List Int)
    (sel : List (Int × SlotC))
    (hsel : ghostInv enc att db did2 ws we grid sel) (b : BillingI)
    (hb : b ∈ jaFinalize enc att did sel) (hp : b.jaPriority = 0) :
    occupiedAt db did2 ws we b.time = false ∧ b.time ∈ grid := by
  unfold jaFinalize at hb
  rw [List.mem_map] at hb
  obtain ⟨s, hs, hbs⟩ := hb
  rw [mem_jsSortBy, List.mem_map] at hs
  obtain ⟨kv, hkv, hskv⟩ := hs
  subst hbs
  subst hskv
  dsimp only at hp ⊢
  have h1 := hsel kv hkv
  split at hp
  · cases hp
  · split at hp
    · cases hp
    · rename_i he ha
      rcases h1.2 with h | h | h
      · exact absurd h he
      · exact absurd h ha
      · exact ⟨h, h1.1⟩

set_option maxHeartbeats 1000000 in
/-- C10: within a shift window, every priority-0 (ghost: unattended,
non-encounter-start) 13.99JA candidate selected by the scheduler sits on
the generated quarter-hour grid at a time where the window's doctor has
no shift_slots record (for any patient) inside the clamped window; and
the occupied-slot exclusion does NOT apply to attended/encounter-start
selection: in a concrete scenario an encounter-start (priority 2) line
is selected at a time that IS occupied. -/
theorem claim_C10 (db : DB) (admitted delivered : Int)
    (scopedSlots : List Slot) (deliveredTime : Option Int)
    (otherPatients : List OtherPatient) (w : ShiftWindow) (b : BillingI)
    (hb : b ∈ buildJaBillingsForWindow db admitted delivered scopedSlots
      deliveredTime otherPatients w)
    (hp : b.jaPriority = 0) :
    (occupiedAt db w.doctor_id (max admitted w.start_datetime)
        (min delivered w.end_datetime) b.time = false ∧
      b.time ∈ generateSlots
        (if floorToQuarter (max admitted w.start_datetime) <
            w.start_datetime then w.start_datetime
         else floorToQuarter (max admitted w.start_datetime))
        (min delivered w.end_datetime)) ∧
    (((buildJaBillingsForWindow dbC10 0 100 [attSlotC10] none []
        ⟨1, 0, 60⟩).filter (fun x =>
        decide (x.time = 15) && decide (x.jaPriority = 2))).length = 1 ∧
      occupiedAt dbC10 1 0 60 15 = true) := by
  refine ⟨?_, by decide, by decide⟩
  revert hp
  unfold buildJaBillingsForWindow at hb
  revert hb
  split
  · intro hb; cases hb
  · rename_i did heq
    have hdid : did = w.doctor_id := lookupDoctor_eq db w.doctor_id did heq
    subst hdid
    dsimp only
    intro hb
    rcases mem_ite_list hb with h | h
    · cases h
    · rcases mem_ite_list h with h2 | h2
      · cases h2
      · rcases mem_ite_list h2 with h3 | h3
        · intro hp
          refine jaFinalize_ghost _ _ _ db w.doctor_id _ _ _ _ ?_ b h3 hp
          refine foldl_preserve_mem _ _ _ _ ?_ ?_
          · intro kv hkv s2 hs2
            apply ite_prop (ghostInv _ _ _ _ _ _ _)
            · exact hs2
            · apply ite_prop (ghostInv _ _ _ _ _ _ _)
              · exact hs2
              · rw [mem_jsSortBy, List.mem_filterMap] at hkv
                obtain ⟨t, htmem, hft⟩ := hkv
                revert hft
                split
                · rename_i s hfind
                  split
                  · intro h4; cases h4
                  · intro h4
                    rw [Option.some_inj] at h4
                    subst h4
                    refine ghostInv_alistSet _ _ _ _ _ _ _ _ _ _ hs2
                      ?_ ?_
                    · have h5 := slots_filterMap_mem_grid _ _ _ s
                        (List.mem_of_find?_eq_some hfind)
                      exact h5
                    · refine Or.inr (Or.inl ?_)
                      have hsk : s.slotTime = t := by
                        have hp2 := List.find?_some hfind
                        exact of_decide_eq_true hp2
                      show List.contains _ s.slotTime = true
                      rw [hsk]
                      exact List.elem_eq_true_of_mem htmem
                · intro h4; cases h4
          · refine foldl_preserve_mem _ _ _ _ ?_
              (ghostInv_nil _ _ _ _ _ _ _)
            intro kv hkv s2 hs2
            have hkv2 := (List.take_sublist _ _).subset hkv
            rw [mem_jsSortBy, List.mem_filterMap] at hkv2
            obtain ⟨k, hkmem, hgk⟩ := hkv2
            rw [Option.map_eq_some'] at hgk
            obtain ⟨s, hfind, hkvs⟩ := hgk
            subst hkvs
            refine ghostInv_alistSet _ _ _ _ _ _ _ _ _ _ hs2 ?_ ?_
            · have h5 := slots_filterMap_mem_grid _ _ _ s
                (List.mem_of_find?_eq_some hfind)
              exact h5
            · refine Or.inl ?_
              have hsk : s.slotTime = k := by
                have hp2 := List.find?_some hfind
                exact of_decide_eq_true hp2
              show List.contains _ s.slotTime = true
              rw [hsk]
              exact List.elem_eq_true_of_mem hkmem
        · intro hp
          refine jaFinalize_ghost _ _ _ db w.doctor_id _ _ _ _ ?_ b h3 hp
          refine foldl_preserve_mem _ _ _ _ ?_ ?_
          · intro s hs s2 hs2
            refine ghostInv_alistSet _ _ _ _ _ _ _ _ _ _ hs2 ?_ ?_
            · have hs4 := (List.take_sublist _ _).subset hs
              rw [mem_jsSortBy, List.mem_map] at hs4
              obtain ⟨s0, hs0, hss0⟩ := hs4
              rw [List.mem_filter] at hs0
              subst hss0
              have h5 := slots_filterMap_mem_grid _ _ _ s0 hs0.1
              exact h5
            · have hs4 := (List.take_sublist _ _).subset hs
              rw [mem_jsSortBy, List.mem_map] at hs4
              obtain ⟨s0, hs0, hss0⟩ := hs4
              rw [List.mem_filter] at hs0
              subst hss0
              have hcond := hs0.2
              simp only [Bool.and_eq_true, Bool.not_eq_true'] at hcond
              exact Or.inr (Or.inr hcond.2)
          · refine foldl_preserve_mem _ _ _ _ ?_ ?_
            · intro kv hkv s2 hs2
              apply ite_prop (ghostInv _ _ _ _ _ _ _)
              · exact hs2
              · apply ite_prop (ghostInv _ _ _ _ _ _ _)
                · exact hs2
                · rw [mem_jsSortBy, List.mem_filterMap] at hkv
                  obtain ⟨t, htmem, hft⟩ := hkv
                  revert hft
                  split
                  · rename_i s hfind
                    split
                    · intro h4; cases h4
                    · intro h4
                      rw [Option.some_inj] at h4
                      subst h4
                      refine ghostInv_alistSet _ _ _ _ _ _ _ _ _ _ hs2
                        ?_ ?_
                      · have h5 := slots_filterMap_mem_grid _ _ _ s
                          (List.mem_of_find?_eq_some hfind)
                        exact h5
                      · refine Or.inr (Or.inl ?_)
                        have hsk : s.slotTime = t := by
                          have hp2 := List.find?_some hfind
                          exact of_decide_eq_true hp2
                        show List.contains _ s.slotTime = true
                        rw [hsk]
                        exact List.elem_eq_true_of_mem htmem
                  · intro h4; cases h4
            · refine foldl_preserve_mem _ _ _ _ ?_
                (ghostInv_nil _ _ _ _ _ _ _)
              intro kv hkv s2 hs2
              have hkv2 := (List.take_sublist _ _).subset hkv
              rw [mem_jsSortBy, List.mem_filterMap] at hkv2
              obtain ⟨k, hkmem, hgk⟩ := hkv2
              rw [Option.map_eq_some'] at hgk
              obtain ⟨s, hfind, hkvs⟩ := hgk
              subst hkvs
              refine ghostInv_alistSet _ _ _ _ _ _ _ _ _ _ hs2 ?_ ?_
              · have h5 := slots_filterMap_mem_grid _ _ _ s
                  (List.mem_of_find?_eq_some hfind)
                exact h5
              · refine Or.inl ?_
                have hsk : s.slotTime = k := by
                  have hp2 := List.find?_some hfind
                  exact of_decide_eq_true hp2
                show List.contains _ s.slotTime = true
                rw [hsk]
                exact List.elem_eq_true_of_mem hkmem

/-- C10 witness: the ghost line at time 0 of a plain one-window scenario
is a priority-0 entry of the scheduler; the theorem yields that its time
is unoccupied and on the grid, alongside the concrete non-exclusion
facts. -/
theorem claim_C10_witness :
    ((⟨0, "13.99JA", "", some 1, 0, 0⟩ : BillingI) ∈
        buildJaBillingsForWindow dbDoctors1 0 100 [] none []
          ⟨1, 0, 60⟩ ∧
      (⟨0, "13.99JA", "", some 1, 0, 0⟩ : BillingI).jaPriority = 0) ∧
    ((occupiedAt dbDoctors1 1 (max 0 0) (min 100 60) 0 = false ∧
       (0 : Int) ∈ generateSlots
         (if floorToQuarter (max 0 0) < (0 : Int) then (0 : Int)
          else floorToQuarter (max 0 0)) (min 100 60)) ∧
     (((buildJaBillingsForWindow dbC10 0 100 [attSlotC10] none []
         ⟨1, 0, 60⟩).filter (fun x =>
         decide (x.time = 15) && decide (x.jaPriority = 2))).length = 1 ∧
      occupiedAt dbC10 1 0 60 15 = true)) :=
  ⟨⟨by decide, by decide⟩,
   claim_C10 dbDoctors1 0 100 [] none [] ⟨1, 0, 60⟩
     ⟨0, "13.99JA", "", some 1, 0, 0⟩ (by decide) (by decide)⟩
